import Mathlib

/-!
# Xmodem receiver of the STM32 bootloader: shallow embedding and verified properties

The definitions below follow `Src/xmodem.c` together with the constants of
`Inc/xmodem.h`, `Inc/flash.h` and `Inc/uart.h`.

* `uint8_t`, `uint16_t` and `uint32_t` values are natural numbers; every
  assignment that can leave the range of its C type is followed by an explicit
  `% 2^w`.
* The three globals of `xmodem.c` are the fields of `Globals`.
* The collaborators (`uart_receive`, `flash_erase`, `flash_write`) are not part
  of the module.  Their answers are inputs of the model (`Packet`, `Iter`), and
  every call the module makes to a collaborator with an observable effect is
  recorded as an `Event` in a trace.
-/

namespace Xmodem

/-! ## Constants -/

/-- Maximum allowed errors (xmodem.h). -/
def X_MAX_ERRORS : Nat := 1

/-- Payload size of a SOH packet (xmodem.h). -/
def X_PACKET_128_SIZE : Nat := 128

/-- Modelled from the spec: xmodem.c uses the name X_PACKET_1024_SIZE, which the
header under Inc/ does not define (it defines X_PACKET_1K_SIZE as 1024); the
spec fixes the payload of an STX packet to 1024 bytes. -/
def X_PACKET_1024_SIZE : Nat := 1024

/-- Size of the trailing CRC (xmodem.h). -/
def X_PACKET_CRC_SIZE : Nat := 2

/-- Index of the packet number in the received buffer (xmodem.h). -/
def X_PACKET_NUMBER_INDEX : Nat := 0

/-- Modelled from the spec: xmodem.c uses the name X_PACKET_NUMBER_COMPLEMENT_INDEX,
which the header under Inc/ does not define (it defines X_PACKET_NUMBER_C_INDEX as 1);
the spec places the complement right after the sequence number. -/
def X_PACKET_NUMBER_COMPLEMENT_INDEX : Nat := 1

/-- Index of the first payload byte in the received buffer (xmodem.h). -/
def X_PACKET_DATA_INDEX : Nat := 2

/-- Start Of Header, 128 bytes. -/
def X_SOH : Nat := 0x01
/-- Start Of Header, 1024 bytes. -/
def X_STX : Nat := 0x02
/-- End Of Transmission. -/
def X_EOT : Nat := 0x04
/-- Acknowledge. -/
def X_ACK : Nat := 0x06
/-- Not Acknowledge. -/
def X_NAK : Nat := 0x15
/-- Cancel. -/
def X_CAN : Nat := 0x18
/-- ASCII C, the CRC-16 solicitation. -/
def X_C : Nat := 0x43

/-- Status enumerators of xmodem_status (xmodem.h). -/
def X_OK : Nat := 0x00
/-- CRC calculation error. -/
def X_ERROR_CRC : Nat := 0x01
/-- Packet number mismatch error. -/
def X_ERROR_NUMBER : Nat := 0x02
/-- UART communication error. -/
def X_ERROR_UART : Nat := 0x04
/-- Flash related error. -/
def X_ERROR_FLASH : Nat := 0x06
/-- Generic error. -/
def X_ERROR : Nat := 0xFF

/-- Start address of the user application (flash.h). -/
def FLASH_APP_START_ADDRESS : Nat := 0x08008000

/-! ## CRC-16 (xmodem_calc_crc) -/

/-- Body of the inner `for` loop of xmodem_calc_crc: one shift of the 16-bit
register, with the polynomial folded in when bit 15 was set.  The C expression
is evaluated in `int` and truncated by the assignment to `uint16_t`. -/
def crc_shift (crc : Nat) : Nat :=
  if crc &&& 0x8000 ≠ 0 then
    ((crc <<< 1) ^^^ 0x1021) % 65536
  else
    (crc <<< 1) % 65536

/-- The inner `for (i = 0; i < 8; i++)` loop, with `n` iterations left. -/
def crc_for : Nat → Nat → Nat
  | 0, crc => crc
  | n + 1, crc => crc_for n (crc_shift crc)

/-- The `while (length)` loop of xmodem_calc_crc.  `data` is the memory the
pointer walks over (a byte read past its end yields 0). -/
def xmodem_calc_crc_loop : List Nat → Nat → Nat → Nat
  | _, 0, crc => crc
  | data, length + 1, crc =>
    xmodem_calc_crc_loop data.tail length
      (crc_for 8 ((crc ^^^ (data.headD 0 <<< 8)) % 65536))

/-- Function xmodem_calc_crc(data, length): the register starts at 0. -/
def xmodem_calc_crc (data : List Nat) (length : Nat) : Nat :=
  xmodem_calc_crc_loop data length 0

/-! ### Reference CRC-16, written from the words of the specification -/

/-- Reference round: if the top bit of the 16-bit register is set, shift left
and XOR with the polynomial 0x1021, else shift left (arithmetic mod 2^16). -/
def crc16_ref_round (reg : Nat) : Nat :=
  if reg.testBit 15 then ((2 * reg) % 2 ^ 16) ^^^ 0x1021 else (2 * reg) % 2 ^ 16

/-- Reference byte step: XOR the byte into the high byte of the register, then
perform 8 rounds. -/
def crc16_ref_byte (reg byte : Nat) : Nat :=
  crc16_ref_round^[8] ((reg ^^^ (byte * 2 ^ 8)) % 2 ^ 16)

/-- Reference CRC-16: left to right over the bytes, initial register 0x0000. -/
def crc16_ref (bytes : List Nat) : Nat :=
  bytes.foldl crc16_ref_byte 0

/-! ## Collaborators and session state -/

/-- Status UART_OK of uart_status (uart.h). -/
def UART_OK : Nat := 0x00
/-- Status UART_ERROR of uart_status (uart.h). -/
def UART_ERROR : Nat := 0xFF
/-- Status FLASH_OK of flash_status (flash.h). -/
def FLASH_OK : Nat := 0x00
/-- Status FLASH_ERROR of flash_status (flash.h). -/
def FLASH_ERROR : Nat := 0xFF

/-- First text sent on End Of Transmission. -/
def TEXT_UPDATED : String := "\n\rFirmware updated!\n\r"
/-- Second text sent on End Of Transmission. -/
def TEXT_JUMPING : String := "Jumping to user application...\n\r"

/-- Calls of xmodem.c into its collaborators that have an effect outside the
module, in the order they are made. -/
inductive Event where
  /-- Call uart_transmit_ch(data). -/
  | transmit_ch (data : Nat)
  /-- Call uart_transmit_str(text). -/
  | transmit_str (text : String)
  /-- Call flash_erase(address). -/
  | flash_erase (address : Nat)
  /-- Call flash_write(address, data, length): `data` holds the bytes the
  pointer designates, `length` is the number of 32-bit words. -/
  | flash_write (address : Nat) (data : List Nat) (length : Nat)
  /-- Call flash_jump_to_app(). -/
  | flash_jump_to_app
  deriving DecidableEq

/-- The file-scope variables of xmodem.c. -/
structure Globals where
  /-- Packet number counter (uint8_t). -/
  xmodem_packet_number : Nat
  /-- Address where we have to write (uint32_t). -/
  xmodem_actual_flash_address : Nat
  /-- First packet or not. -/
  x_first_packet_received : Bool
  deriving DecidableEq

/-- What the collaborators answer during one call of xmodem_handle_packet.
The two flash answers are consulted only if the corresponding call is made. -/
structure Packet where
  /-- Return value of uart_receive(&received_data[0], length). -/
  comm_status : Nat
  /-- Content of the buffer received_data after uart_receive (an index past
  the end of the list reads 0). -/
  received_data : List Nat
  /-- Return value of flash_erase, should it be called. -/
  erase_status : Nat
  /-- Return value of flash_write, should it be called. -/
  write_status : Nat
  deriving DecidableEq

/-- Result of xmodem_handle_packet: returned status, globals afterwards, and
the collaborator calls made. -/
structure PacketResult where
  /-- Returned xmodem_status. -/
  status : Nat
  /-- File-scope variables after the call. -/
  globals : Globals
  /-- Calls made, in order. -/
  events : List Event
  deriving DecidableEq

/-- The local `size` of xmodem_handle_packet after the header test. -/
def packet_size (header : Nat) : Nat :=
  if X_SOH = header then X_PACKET_128_SIZE
  else if X_STX = header then X_PACKET_1024_SIZE
  else 0

/-- The local `status` of xmodem_handle_packet after the header test. -/
def header_status (header : Nat) : Nat :=
  if X_SOH = header then X_OK
  else if X_STX = header then X_OK
  else X_ERROR

/-- The local `length` of xmodem_handle_packet (uint16_t). -/
def packet_length (header : Nat) : Nat :=
  (packet_size header + X_PACKET_DATA_INDEX + X_PACKET_CRC_SIZE) % 65536

/-- The local `crc_received`: the last two received bytes, first one high. -/
def crc_received (received_data : List Nat) (length : Nat) : Nat :=
  ((received_data.getD (length - 2) 0 <<< 8) ||| received_data.getD (length - 1) 0) % 65536

/-- The local `crc_calculated`: CRC over `size` bytes from X_PACKET_DATA_INDEX. -/
def crc_calculated (received_data : List Nat) (size : Nat) : Nat :=
  xmodem_calc_crc (received_data.drop X_PACKET_DATA_INDEX) size

/-- The bytes handed to flash_write: `size / 4` words starting at
received_data[X_PACKET_DATA_INDEX]. -/
def write_data (received_data : List Nat) (size : Nat) : List Nat :=
  (received_data.drop X_PACKET_DATA_INDEX).take (4 * (size / 4))

/-- The block "Error handling and flashing" of xmodem_handle_packet, entered
with status X_OK: the four checks, then the call of flash_write. -/
def check_and_flash (g : Globals) (header : Nat) (p : Packet) (status : Nat) : Nat :=
  let size := packet_size header
  let status := if UART_OK ≠ p.comm_status then status ||| X_ERROR_UART else status
  let status :=
    if g.xmodem_packet_number ≠ p.received_data.getD X_PACKET_NUMBER_INDEX 0 then
      status ||| X_ERROR_NUMBER
    else status
  let status :=
    if 255 ≠ p.received_data.getD X_PACKET_NUMBER_INDEX 0
        + p.received_data.getD X_PACKET_NUMBER_COMPLEMENT_INDEX 0 then
      status ||| X_ERROR_NUMBER
    else status
  let status :=
    if crc_calculated p.received_data size ≠ crc_received p.received_data (packet_length header) then
      status ||| X_ERROR_CRC
    else status
  if FLASH_OK ≠ p.write_status then status ||| X_ERROR_FLASH else status

/-- Function xmodem_handle_packet(header), run on globals `g` with the
collaborator answers `p`. -/
def xmodem_handle_packet (g : Globals) (header : Nat) (p : Packet) : PacketResult :=
  let size := packet_size header
  let status := header_status header
  -- If it is the first packet, then erase the memory.
  let erase_needed := g.x_first_packet_received = false
  let first :=
    if erase_needed then (if FLASH_OK = p.erase_status then true else g.x_first_packet_received)
    else g.x_first_packet_received
  let ev_erase := if erase_needed then [Event.flash_erase FLASH_APP_START_ADDRESS] else []
  let status :=
    if erase_needed then (if FLASH_OK = p.erase_status then status else status ||| X_ERROR_FLASH)
    else status
  -- Error handling and flashing.
  let ev_write :=
    if X_OK = status then
      [Event.flash_write g.xmodem_actual_flash_address (write_data p.received_data size) (size / 4)]
    else []
  let status := if X_OK = status then check_and_flash g header p status else status
  -- Raise the packet number and the address counters (if there wasn't any error).
  let number := if X_OK = status then (g.xmodem_packet_number + 1) % 256 else g.xmodem_packet_number
  let address :=
    if X_OK = status then (g.xmodem_actual_flash_address + size) % 4294967296
    else g.xmodem_actual_flash_address
  { status := status
    globals :=
      { xmodem_packet_number := number
        xmodem_actual_flash_address := address
        x_first_packet_received := first }
    events := ev_erase ++ ev_write }

/-- What the collaborators answer during one pass of the `while` loop of
xmodem_receive. -/
structure Iter where
  /-- Return value of uart_receive(&header, 1). -/
  comm_status : Nat
  /-- Value of the local `header` after that call (it is 0x00 before it). -/
  header : Nat
  /-- Answers for xmodem_handle_packet, should it be called. -/
  packet : Packet
  deriving DecidableEq

/-- State of a run of xmodem_receive: its locals, the globals, the calls made
so far, and whether flash_jump_to_app has been entered. -/
structure Session where
  /-- Local `status`. -/
  status : Nat
  /-- Local `error_number` (uint8_t). -/
  error_number : Nat
  /-- File-scope variables. -/
  globals : Globals
  /-- Collaborator calls made so far, oldest first. -/
  trace : List Event
  /-- Whether flash_jump_to_app has been called. -/
  jumped : Bool
  deriving DecidableEq

/-- The state in which xmodem_receive enters its loop. -/
def session_start : Session :=
  { status := X_OK
    error_number := 0
    globals :=
      { xmodem_packet_number := 1
        xmodem_actual_flash_address := FLASH_APP_START_ADDRESS
        x_first_packet_received := false }
    trace := []
    jumped := false }

/-- The `switch (header)` of xmodem_receive, entered with the local status
`status` and the trace `trace` built so far in this pass. -/
def header_switch (s : Session) (it : Iter) (status : Nat) (trace : List Event) : Session :=
  if it.header = X_SOH ∨ it.header = X_STX then
    let r := xmodem_handle_packet s.globals it.header it.packet
    if X_OK = r.status then
      { s with status := status, globals := r.globals,
               trace := trace ++ r.events ++ [Event.transmit_ch X_ACK] }
    else
      { s with status := status, globals := r.globals,
               trace := trace ++ r.events ++ [Event.transmit_ch X_NAK],
               error_number := (s.error_number + 1) % 256 }
  else if it.header = X_EOT then
    { s with status := status,
             trace := trace ++ [Event.transmit_ch X_ACK, Event.transmit_str TEXT_UPDATED,
               Event.transmit_str TEXT_JUMPING, Event.flash_jump_to_app],
             jumped := true }
  else if it.header = X_CAN then
    { s with status := X_ERROR, trace := trace }
  else if UART_OK = it.comm_status then
    { s with status := status, error_number := (s.error_number + 1) % 256,
             trace := trace ++ [Event.transmit_ch X_NAK] }
  else
    { s with status := status, trace := trace }

/-- One pass through the body of the `while` loop of xmodem_receive. -/
def xmodem_receive_body (s : Session) (it : Iter) : Session :=
  -- Spam the host with ASCII "C" until something is received.
  let trace :=
    if UART_OK ≠ it.comm_status ∧ s.globals.x_first_packet_received = false then
      s.trace ++ [Event.transmit_ch X_C]
    else s.trace
  -- If the number of errors reached critical, then abort.
  let trace :=
    if s.error_number ≥ X_MAX_ERRORS then
      trace ++ [Event.transmit_ch X_CAN, Event.transmit_ch X_CAN]
    else trace
  let status := if s.error_number ≥ X_MAX_ERRORS then X_ERROR else s.status
  header_switch s it status trace

/-- Modelled from the spec: flash_jump_to_app is declared in flash.h but its code
is not part of the module; the spec states that the handoff never returns to
its caller.  Hence the loop of xmodem_receive is still being executed in state
`s` when the loop condition holds and flash_jump_to_app has not been called. -/
def running (s : Session) : Bool :=
  decide (X_OK = s.status) && !s.jumped

/-- Whether xmodem_receive has returned to its caller in state `s`: the loop
condition failed, without a handoff. -/
def returned (s : Session) : Bool :=
  !decide (X_OK = s.status) && !s.jumped

/-- The `while (X_OK == status)` loop of xmodem_receive over the successive
collaborator answers `inputs`; one element is consumed per pass.  The run is
cut when the inputs are used up. -/
def xmodem_receive_loop : Session → List Iter → Session
  | s, [] => s
  | s, it :: rest =>
    if running s then xmodem_receive_loop (xmodem_receive_body s it) rest else s

/-- Function xmodem_receive(): initialisation, then the loop. -/
def xmodem_receive (inputs : List Iter) : Session :=
  xmodem_receive_loop session_start inputs

/-! ## Concrete inputs used in examples -/

/-- A buffer as a correct sender fills it: number, complement 255 - number,
the payload, then the CRC-16 of the payload, high byte first. -/
def frame (number : Nat) (payload : List Nat) : List Nat :=
  [number, 255 - number] ++ payload
    ++ [xmodem_calc_crc payload payload.length >>> 8, xmodem_calc_crc payload payload.length &&& 0xFF]

/-- Collaborator answers for a correctly delivered frame with a storage that
succeeds. -/
def good_packet (number : Nat) (payload : List Nat) : Packet :=
  { comm_status := UART_OK
    received_data := frame number payload
    erase_status := FLASH_OK
    write_status := FLASH_OK }

/-- A loop pass that reads the header SOH and then a correct 128-byte frame. -/
def soh_pass (number : Nat) (payload : List Nat) : Iter :=
  { comm_status := UART_OK, header := X_SOH, packet := good_packet number payload }

/-- Answers for a call of xmodem_handle_packet that the pass does not make. -/
def idle_packet : Packet :=
  { comm_status := UART_ERROR, received_data := [], erase_status := FLASH_OK, write_status := FLASH_OK }

/-- A loop pass that reads the header End Of Transmission. -/
def eot_pass : Iter :=
  { comm_status := UART_OK, header := X_EOT, packet := idle_packet }

/-- A loop pass whose header read times out: the local header keeps 0x00. -/
def timeout_pass : Iter :=
  { comm_status := UART_ERROR, header := 0x00, packet := idle_packet }

/-- A loop pass that successfully reads a byte that is no Xmodem header. -/
def junk_pass : Iter :=
  { comm_status := UART_OK, header := 0x55, packet := idle_packet }

/-- A payload of 128 zero bytes; its CRC-16 is 0x0000. -/
def zero_payload : List Nat := List.replicate 128 0

/-- Answers for a SOH frame number 1 (complement 254) with the zero payload
whose trailing CRC bytes are 0x12 0x34 instead of 0x00 0x00; UART and flash
succeed. -/
def bad_crc_packet : Packet :=
  { comm_status := UART_OK
    received_data := [1, 254] ++ zero_payload ++ [0x12, 0x34]
    erase_status := FLASH_OK
    write_status := FLASH_OK }

/-- A loop pass that reads SOH and a correct frame number 1 with the zero
payload, during which flash_erase reports an error. -/
def erase_fail_pass : Iter :=
  { comm_status := UART_OK
    header := X_SOH
    packet :=
      { comm_status := UART_OK
        received_data := frame 1 zero_payload
        erase_status := FLASH_ERROR
        write_status := FLASH_OK } }

/-- An invalid event in the sense of the error budget, for a pass `it`
processed with globals `g`: a successfully read header byte that is none of
SOH, STX, EOT, CAN, or a data packet that xmodem_handle_packet rejects. -/
def invalid_event (g : Globals) (it : Iter) : Prop :=
  (it.comm_status = UART_OK ∧ it.header ≠ X_SOH ∧ it.header ≠ X_STX ∧ it.header ≠ X_EOT
      ∧ it.header ≠ X_CAN) ∨
    ((it.header = X_SOH ∨ it.header = X_STX) ∧
      (xmodem_handle_packet g it.header it.packet).status ≠ X_OK)

/-- A trace without cancel byte, without text and without handoff. -/
def quiet (t : List Event) : Prop :=
  List.count (Event.transmit_ch X_CAN) t = 0 ∧ (∀ x, Event.transmit_str x ∉ t) ∧
    Event.flash_jump_to_app ∉ t

/-- Whether an event is a call of flash_erase. -/
def is_erase : Event → Bool
  | Event.flash_erase _ => true
  | _ => false

/-- Whether an event is a call of flash_write. -/
def is_write : Event → Bool
  | Event.flash_write _ _ _ => true
  | _ => false

/-- The calls a pass of the loop makes before it reaches the `switch`: the
solicitation on a failed header read while no first packet was received, then
the two cancel bytes when the error count has reached X_MAX_ERRORS. -/
def pass_prologue (s : Session) (it : Iter) : List Event :=
  (if UART_OK ≠ it.comm_status ∧ s.globals.x_first_packet_received = false then
      [Event.transmit_ch X_C] else []) ++
    (if s.error_number ≥ X_MAX_ERRORS then [Event.transmit_ch X_CAN, Event.transmit_ch X_CAN]
      else [])

/-- A loop pass that reads SOH and then the frame of `bad_crc_packet`: number,
complement and payload are correct, the trailing CRC is wrong, the erase
succeeds. -/
def bad_crc_pass : Iter :=
  { comm_status := UART_OK, header := X_SOH, packet := bad_crc_packet }

/-- Shape of a flash_write request: the address is the start address plus a
multiple of 128 (as a uint32_t) and word-aligned, and the request carries 32
words or 256 words; `wf` stands for the assumption that every data pass of
the run received a buffer that holds the bytes it asked for, under which the
payload holds exactly 128 or 1024 bytes. -/
def write_shape (wf : Prop) (address : Nat) (data : List Nat) (length : Nat) : Prop :=
  (∃ k, address = (FLASH_APP_START_ADDRESS + 128 * k) % 4294967296) ∧
    address % 4 = 0 ∧
    ((length = 32 ∧ (wf → data.length = 128)) ∨ (length = 256 ∧ (wf → data.length = 1024)))

/-- The buffer of a data pass holds at least the bytes requested from
uart_receive (the C array has room for the longest packet). -/
def buffer_filled (it : Iter) : Prop :=
  (it.header = X_SOH ∨ it.header = X_STX) →
    packet_length it.header ≤ it.packet.received_data.length

/-- Answers for a correct SOH frame number 1 with the zero payload for which
flash_write reports an error: the only failure is the storage one. -/
def write_fail_packet : Packet :=
  { comm_status := UART_OK
    received_data := frame 1 zero_payload
    erase_status := FLASH_OK
    write_status := FLASH_ERROR }

/-- Answers for a SOH frame with the zero payload and a correct CRC that
carries number 2 (complement 253) and whose UART read reports an error, with
a storage that succeeds: the failures are the UART one and the number one. -/
def uart_and_number_fail_packet : Packet :=
  { comm_status := UART_ERROR
    received_data := frame 2 zero_payload
    erase_status := FLASH_OK
    write_status := FLASH_OK }

/-- The flash_write request that belongs to the data pass `it`: the payload is
the `size` bytes of the buffer of that pass from X_PACKET_DATA_INDEX on, and
the header of the pass fixes the size: SOH gives 32 words, and exactly 128
bytes when the buffer holds what was asked for; STX gives 256 words, and
exactly 1024 bytes. -/
def write_of_pass (it : Iter) (data : List Nat) (length : Nat) : Prop :=
  data = write_data it.packet.received_data (packet_size it.header) ∧
    ((it.header = X_SOH ∧ length = 32 ∧ (buffer_filled it → data.length = 128)) ∨
      (it.header = X_STX ∧ length = 256 ∧ (buffer_filled it → data.length = 1024)))

/-! ## Properties of the CRC engine -/

theorem and_bit15_ne_zero_iff (c : Nat) : c &&& 0x8000 ≠ 0 ↔ c.testBit 15 = true := by
  have h15 : (0x8000 : Nat) = 2 ^ 15 := by norm_num
  rw [h15]
  constructor
  · intro h
    by_contra hb
    apply h
    apply Nat.eq_of_testBit_eq
    intro i
    rw [Nat.testBit_and, Nat.testBit_two_pow, Nat.zero_testBit]
    by_cases hi : 15 = i
    · subst hi; simp [hb]
    · simp [hi]
  · intro hb h
    have h2 : (c &&& 2 ^ 15).testBit 15 = true := by
      rw [Nat.testBit_and, Nat.testBit_two_pow_self, hb]; rfl
    rw [h] at h2
    simp at h2

theorem xor_poly_mod (x : Nat) : (x ^^^ 0x1021) % 65536 = (x % 2 ^ 16) ^^^ 0x1021 := by
  have h16 : (65536 : Nat) = 2 ^ 16 := by norm_num
  rw [h16]
  apply Nat.eq_of_testBit_eq
  intro i
  rw [Nat.testBit_mod_two_pow, Nat.testBit_xor, Nat.testBit_xor, Nat.testBit_mod_two_pow]
  by_cases hi : i < 16
  · simp [hi]
  · have hp : Nat.testBit 0x1021 i = false := by
      apply Nat.testBit_lt_two_pow
      calc (0x1021 : Nat) < 2 ^ 16 := by norm_num
        _ ≤ 2 ^ i := Nat.pow_le_pow_right (by norm_num) (by omega)
    simp [hi, hp]

theorem crc_shift_eq_ref (c : Nat) : crc_shift c = crc16_ref_round c := by
  unfold crc_shift crc16_ref_round
  have hs : c <<< 1 = 2 * c := by rw [Nat.shiftLeft_eq]; omega
  by_cases hb : c.testBit 15 = true
  · rw [if_pos ((and_bit15_ne_zero_iff c).2 hb), if_pos hb, hs, xor_poly_mod]
  · rw [if_neg (fun h => hb ((and_bit15_ne_zero_iff c).1 h)), if_neg hb, hs]
    norm_num

theorem crc_shift_lt (c : Nat) : crc_shift c < 65536 := by
  unfold crc_shift
  split <;> exact Nat.mod_lt _ (by norm_num)

theorem crc_for_lt (n c : Nat) (hc : c < 65536) : crc_for n c < 65536 := by
  induction n generalizing c with
  | zero => exact hc
  | succ n ih => exact ih _ (crc_shift_lt c)

theorem crc_loop_lt (data : List Nat) (length crc : Nat) (hc : crc < 65536) :
    xmodem_calc_crc_loop data length crc < 65536 := by
  induction length generalizing data crc with
  | zero => exact hc
  | succ n ih =>
    rw [xmodem_calc_crc_loop]
    exact ih _ _ (crc_for_lt 8 _ (Nat.mod_lt _ (by norm_num)))

theorem xmodem_calc_crc_lt (data : List Nat) (length : Nat) :
    xmodem_calc_crc data length < 65536 :=
  crc_loop_lt data length 0 (by norm_num)

theorem crc_for_eq_iterate (n c : Nat) : crc_for n c = crc16_ref_round^[n] c := by
  induction n generalizing c with
  | zero => rfl
  | succ n ih => rw [crc_for, ih, crc_shift_eq_ref, Function.iterate_succ_apply]

theorem crc_loop_eq_foldl (data : List Nat) (crc : Nat) :
    xmodem_calc_crc_loop data data.length crc = data.foldl crc16_ref_byte crc := by
  induction data generalizing crc with
  | nil => rfl
  | cons b rest ih =>
    rw [List.length_cons, xmodem_calc_crc_loop, List.tail_cons, ih, List.foldl_cons,
      crc_for_eq_iterate]
    have hb : (b :: rest).headD 0 <<< 8 = b * 2 ^ 8 := by
      rw [List.headD_cons, Nat.shiftLeft_eq]
    rw [hb]
    rfl

/-- C4: on every byte sequence xmodem_calc_crc (called with the length of the
sequence) returns the value of the reference left-to-right CRC-16 with initial
register 0x0000 and polynomial 0x1021; the result is a 16-bit value, and the
empty sequence gives 0x0000. -/
theorem xmodem_calc_crc_refines_reference (data : List Nat) :
    xmodem_calc_crc data data.length = crc16_ref data ∧
    xmodem_calc_crc data data.length < 2 ^ 16 ∧
    xmodem_calc_crc [] 0 = 0x0000 :=
  ⟨crc_loop_eq_foldl data 0, xmodem_calc_crc_lt data data.length, rfl⟩

/-! ## Status of xmodem_handle_packet -/

theorem lor_eq_zero (a b : Nat) : a ||| b = 0 ↔ a = 0 ∧ b = 0 := by
  constructor
  · intro h
    have hbits : ∀ i, a.testBit i = false ∧ b.testBit i = false := by
      intro i
      have := congrArg (fun n => Nat.testBit n i) h
      simpa [Nat.testBit_or] using this
    constructor
    · apply Nat.eq_of_testBit_eq
      intro i
      rw [(hbits i).1, Nat.zero_testBit]
    · apply Nat.eq_of_testBit_eq
      intro i
      rw [(hbits i).2, Nat.zero_testBit]
  · rintro ⟨rfl, rfl⟩
    rfl

theorem raise_flag_eq_zero (c : Prop) [Decidable c] (status flag : Nat) (hf : flag ≠ 0) :
    (if c then status ||| flag else status) = 0 ↔ status = 0 ∧ ¬c := by
  by_cases hc : c
  · simp [hc, lor_eq_zero, hf]
  · simp [hc]

theorem header_status_data (header : Nat) (hh : header = X_SOH ∨ header = X_STX) :
    header_status header = X_OK := by
  rcases hh with h | h <;> subst h <;> rfl

theorem check_and_flash_ok_iff (g : Globals) (header : Nat) (p : Packet) :
    check_and_flash g header p X_OK = X_OK ↔
      (p.comm_status = UART_OK ∧
        g.xmodem_packet_number = p.received_data.getD X_PACKET_NUMBER_INDEX 0 ∧
        p.received_data.getD X_PACKET_NUMBER_INDEX 0
          + p.received_data.getD X_PACKET_NUMBER_COMPLEMENT_INDEX 0 = 255 ∧
        crc_calculated p.received_data (packet_size header)
          = crc_received p.received_data (packet_length header) ∧
        p.write_status = FLASH_OK) := by
  unfold check_and_flash
  simp only [X_OK]
  rw [raise_flag_eq_zero _ _ _ (by decide), raise_flag_eq_zero _ _ _ (by decide),
    raise_flag_eq_zero _ _ _ (by decide), raise_flag_eq_zero _ _ _ (by decide),
    raise_flag_eq_zero _ _ _ (by decide)]
  simp only [ne_eq, not_not, true_and]
  constructor
  · rintro ⟨⟨⟨⟨h1, h2⟩, h3⟩, h4⟩, h5⟩
    exact ⟨h1.symm, h2, h3.symm, h4, h5.symm⟩
  · rintro ⟨h1, h2, h3, h4, h5⟩
    exact ⟨⟨⟨⟨h1.symm, h2⟩, h3.symm⟩, h4⟩, h5.symm⟩

theorem handle_packet_status_ok_iff (g : Globals) (header : Nat) (p : Packet)
    (hh : header = X_SOH ∨ header = X_STX) :
    (xmodem_handle_packet g header p).status = X_OK ↔
      ((g.x_first_packet_received = true ∨ p.erase_status = FLASH_OK) ∧
        p.comm_status = UART_OK ∧
        g.xmodem_packet_number = p.received_data.getD X_PACKET_NUMBER_INDEX 0 ∧
        p.received_data.getD X_PACKET_NUMBER_INDEX 0
          + p.received_data.getD X_PACKET_NUMBER_COMPLEMENT_INDEX 0 = 255 ∧
        crc_calculated p.received_data (packet_size header)
          = crc_received p.received_data (packet_length header) ∧
        p.write_status = FLASH_OK) := by
  have h0 := header_status_data header hh
  rw [← check_and_flash_ok_iff]
  simp only [xmodem_handle_packet, h0]
  cases hf : g.x_first_packet_received
  · by_cases he : p.erase_status = FLASH_OK
    · simp [he]
    · have he2 : ¬ FLASH_OK = p.erase_status := fun h => he h.symm
      simp [he, he2, X_OK, X_ERROR_FLASH]
  · simp

theorem handle_packet_events (g : Globals) (header : Nat) (p : Packet)
    (hh : header = X_SOH ∨ header = X_STX) :
    (xmodem_handle_packet g header p).events =
      (if g.x_first_packet_received = false then [Event.flash_erase FLASH_APP_START_ADDRESS]
        else []) ++
      (if g.x_first_packet_received = true ∨ p.erase_status = FLASH_OK then
        [Event.flash_write g.xmodem_actual_flash_address
          (write_data p.received_data (packet_size header)) (packet_size header / 4)]
        else []) := by
  have h0 := header_status_data header hh
  simp only [xmodem_handle_packet, h0]
  cases hf : g.x_first_packet_received
  · by_cases he : p.erase_status = FLASH_OK
    · simp [he]
    · have he2 : ¬ FLASH_OK = p.erase_status := fun h => he h.symm
      simp [he, he2, X_OK, X_ERROR_FLASH]
  · simp

theorem handle_packet_first (g : Globals) (header : Nat) (p : Packet) :
    (xmodem_handle_packet g header p).globals.x_first_packet_received =
      (g.x_first_packet_received || decide (FLASH_OK = p.erase_status)) := by
  simp only [xmodem_handle_packet]
  cases hf : g.x_first_packet_received <;> by_cases he : FLASH_OK = p.erase_status <;> simp [he]

theorem handle_packet_counters (g : Globals) (header : Nat) (p : Packet) :
    ((xmodem_handle_packet g header p).status = X_OK →
      (xmodem_handle_packet g header p).globals.xmodem_packet_number
        = (g.xmodem_packet_number + 1) % 256 ∧
      (xmodem_handle_packet g header p).globals.xmodem_actual_flash_address
        = (g.xmodem_actual_flash_address + packet_size header) % 4294967296) ∧
    ((xmodem_handle_packet g header p).status ≠ X_OK →
      (xmodem_handle_packet g header p).globals.xmodem_packet_number = g.xmodem_packet_number ∧
      (xmodem_handle_packet g header p).globals.xmodem_actual_flash_address
        = g.xmodem_actual_flash_address) := by
  constructor
  · intro h
    have h2 := h
    simp only [xmodem_handle_packet] at h2 ⊢
    rw [if_pos h2.symm, if_pos h2.symm]
    exact ⟨rfl, rfl⟩
  · intro h
    have h2 : ¬ X_OK = (xmodem_handle_packet g header p).status := fun e => h e.symm
    simp only [xmodem_handle_packet] at h2 ⊢
    rw [if_neg h2, if_neg h2]
    exact ⟨rfl, rfl⟩

/-- C1 (code defect): on a fresh session, a SOH frame whose trailing CRC is wrong
raises exactly the CRC flag, and flash_write is nevertheless called with the
payload of that frame at the start address. -/
theorem handle_packet_writes_frame_with_bad_crc :
    (xmodem_handle_packet session_start.globals X_SOH bad_crc_packet).status = X_ERROR_CRC ∧
    (xmodem_handle_packet session_start.globals X_SOH bad_crc_packet).events =
      [Event.flash_erase FLASH_APP_START_ADDRESS,
        Event.flash_write FLASH_APP_START_ADDRESS zero_payload 32] := by
  decide!

theorem handle_packet_events_no_transmit (g : Globals) (header : Nat) (p : Packet) (b : Nat) :
    List.count (Event.transmit_ch b) (xmodem_handle_packet g header p).events = 0 := by
  simp only [xmodem_handle_packet]
  rw [List.count_eq_zero]
  intro hmem
  rw [List.mem_append] at hmem
  rcases hmem with h | h
  · split at h <;> simp at h
  · split at h <;> simp at h

/-- C2: in a loop pass whose header is SOH or STX the controller transmits ACK
(as the last call of the pass, once, and no NAK, error count unchanged) exactly
when the erase has succeeded before or succeeds now, the UART read succeeded,
the number is the expected one, number + complement is 255, the calculated CRC
equals the received big-endian CRC and flash_write succeeded; otherwise
xmodem_handle_packet returns a non-zero status, the controller transmits NAK
(last call of the pass, once, and no ACK) and the error count grows by one. -/
theorem receive_body_ack_iff_frame_accepted (s : Session) (it : Iter)
    (hh : it.header = X_SOH ∨ it.header = X_STX) :
    ((s.globals.x_first_packet_received = true ∨ it.packet.erase_status = FLASH_OK) ∧
        it.packet.comm_status = UART_OK ∧
        s.globals.xmodem_packet_number = it.packet.received_data.getD X_PACKET_NUMBER_INDEX 0 ∧
        it.packet.received_data.getD X_PACKET_NUMBER_INDEX 0
          + it.packet.received_data.getD X_PACKET_NUMBER_COMPLEMENT_INDEX 0 = 255 ∧
        crc_calculated it.packet.received_data (packet_size it.header)
          = crc_received it.packet.received_data (packet_length it.header) ∧
        it.packet.write_status = FLASH_OK →
      (xmodem_handle_packet s.globals it.header it.packet).status = X_OK ∧
      (xmodem_receive_body s it).trace.getLast? = some (Event.transmit_ch X_ACK) ∧
      List.count (Event.transmit_ch X_ACK) (xmodem_receive_body s it).trace
        = List.count (Event.transmit_ch X_ACK) s.trace + 1 ∧
      List.count (Event.transmit_ch X_NAK) (xmodem_receive_body s it).trace
        = List.count (Event.transmit_ch X_NAK) s.trace ∧
      (xmodem_receive_body s it).error_number = s.error_number) ∧
    (¬((s.globals.x_first_packet_received = true ∨ it.packet.erase_status = FLASH_OK) ∧
        it.packet.comm_status = UART_OK ∧
        s.globals.xmodem_packet_number = it.packet.received_data.getD X_PACKET_NUMBER_INDEX 0 ∧
        it.packet.received_data.getD X_PACKET_NUMBER_INDEX 0
          + it.packet.received_data.getD X_PACKET_NUMBER_COMPLEMENT_INDEX 0 = 255 ∧
        crc_calculated it.packet.received_data (packet_size it.header)
          = crc_received it.packet.received_data (packet_length it.header) ∧
        it.packet.write_status = FLASH_OK) →
      (xmodem_handle_packet s.globals it.header it.packet).status ≠ X_OK ∧
      (xmodem_receive_body s it).trace.getLast? = some (Event.transmit_ch X_NAK) ∧
      List.count (Event.transmit_ch X_NAK) (xmodem_receive_body s it).trace
        = List.count (Event.transmit_ch X_NAK) s.trace + 1 ∧
      List.count (Event.transmit_ch X_ACK) (xmodem_receive_body s it).trace
        = List.count (Event.transmit_ch X_ACK) s.trace ∧
      (xmodem_receive_body s it).error_number = (s.error_number + 1) % 256 ∧
      (s.error_number < 255 → (xmodem_receive_body s it).error_number = s.error_number + 1)) := by
  rw [← handle_packet_status_ok_iff s.globals it.header it.packet hh]
  have hA := handle_packet_events_no_transmit s.globals it.header it.packet X_ACK
  have hN := handle_packet_events_no_transmit s.globals it.header it.packet X_NAK
  constructor
  · intro hok
    refine ⟨hok, ?_⟩
    simp only [xmodem_receive_body, header_switch, if_pos hh, if_pos hok.symm]
    refine ⟨by simp, ?_, ?_, trivial⟩
    · simp only [List.count_append, hA]
      split <;> split <;> simp [List.count_cons, X_ACK, X_C, X_CAN]
    · simp only [List.count_append, hN]
      split <;> split <;> simp [List.count_cons, X_ACK, X_C, X_CAN, X_NAK]
  · intro hbad
    refine ⟨hbad, ?_⟩
    have hbad2 : ¬ X_OK = (xmodem_handle_packet s.globals it.header it.packet).status :=
      fun e => hbad e.symm
    simp only [xmodem_receive_body, header_switch, if_pos hh, if_neg hbad2]
    refine ⟨by simp, ?_, ?_, trivial, ?_⟩
    · simp only [List.count_append, hN]
      split <;> split <;> simp [List.count_cons, X_ACK, X_C, X_CAN, X_NAK]
    · simp only [List.count_append, hA]
      split <;> split <;> simp [List.count_cons, X_ACK, X_C, X_CAN, X_NAK]
    · intro hlt
      exact Nat.mod_eq_of_lt (by omega)

/-- Witness for C2: the first pass of a session that receives a correct frame
number 1 ends with ACK. -/
theorem receive_body_ack_iff_frame_accepted_witness :
    (soh_pass 1 zero_payload).header = X_SOH ∧
    (xmodem_handle_packet session_start.globals X_SOH (good_packet 1 zero_payload)).status = X_OK ∧
    (xmodem_receive_body session_start (soh_pass 1 zero_payload)).trace.getLast?
      = some (Event.transmit_ch X_ACK) :=
  ⟨rfl,
    ((receive_body_ack_iff_frame_accepted session_start (soh_pass 1 zero_payload)
      (Or.inl rfl)).1 (by decide!)).1,
    ((receive_body_ack_iff_frame_accepted session_start (soh_pass 1 zero_payload)
      (Or.inl rfl)).1 (by decide!)).2.1⟩

theorem packet_size_data (header : Nat) (hh : header = X_SOH ∨ header = X_STX) :
    (header = X_SOH ∧ packet_size header = 128) ∨ (header = X_STX ∧ packet_size header = 1024) := by
  rcases hh with h | h <;> subst h
  · exact Or.inl ⟨rfl, rfl⟩
  · exact Or.inr ⟨rfl, rfl⟩

/-- C3: xmodem_handle_packet on a data frame (payload size 128 for SOH, 1024 for
STX) changes the counters only on acceptance.  If it returns X_OK, the packet
number becomes (old + 1) mod 256 and the address old + payload size (as a
uint32_t, so exactly old + size whenever that fits in 32 bits); with any other
status both are unchanged.  A fresh session that admits its first frame ends
with packet number 2 and address FLASH_APP_START_ADDRESS + payload size. -/
theorem handle_packet_counters_advance_only_on_ok (g : Globals) (header : Nat) (p : Packet)
    (hh : header = X_SOH ∨ header = X_STX) :
    ((header = X_SOH ∧ packet_size header = 128) ∨ (header = X_STX ∧ packet_size header = 1024)) ∧
    ((xmodem_handle_packet g header p).status = X_OK →
      (xmodem_handle_packet g header p).globals.xmodem_packet_number
        = (g.xmodem_packet_number + 1) % 256 ∧
      (xmodem_handle_packet g header p).globals.xmodem_actual_flash_address
        = (g.xmodem_actual_flash_address + packet_size header) % 2 ^ 32 ∧
      (g.xmodem_actual_flash_address + packet_size header < 2 ^ 32 →
        (xmodem_handle_packet g header p).globals.xmodem_actual_flash_address
          = g.xmodem_actual_flash_address + packet_size header)) ∧
    ((xmodem_handle_packet g header p).status ≠ X_OK →
      (xmodem_handle_packet g header p).globals.xmodem_packet_number = g.xmodem_packet_number ∧
      (xmodem_handle_packet g header p).globals.xmodem_actual_flash_address
        = g.xmodem_actual_flash_address) ∧
    (g = session_start.globals → (xmodem_handle_packet g header p).status = X_OK →
      p.received_data.getD X_PACKET_NUMBER_INDEX 0 = 1 ∧
      (xmodem_handle_packet g header p).globals.xmodem_packet_number = 2 ∧
      (xmodem_handle_packet g header p).globals.xmodem_actual_flash_address
        = FLASH_APP_START_ADDRESS + packet_size header) := by
  have hsz := packet_size_data header hh
  have hc := handle_packet_counters g header p
  refine ⟨hsz, ?_, hc.2, ?_⟩
  · intro hok
    obtain ⟨h1, h2⟩ := hc.1 hok
    refine ⟨h1, by rw [h2]; norm_num, ?_⟩
    intro hlt
    rw [h2]
    exact Nat.mod_eq_of_lt (by norm_num at hlt ⊢; exact hlt)
  · intro hg hok
    obtain ⟨h1, h2⟩ := hc.1 hok
    have hnum := ((handle_packet_status_ok_iff g header p hh).1 hok).2.2.1
    subst hg
    refine ⟨hnum.symm, h1, ?_⟩
    rw [h2]
    rcases hsz with ⟨_, hs⟩ | ⟨_, hs⟩ <;> rw [hs] <;> rfl

/-- Witness for C3: the first SOH frame of a fresh session, correctly delivered,
moves the counters to 2 and FLASH_APP_START_ADDRESS + 128. -/
theorem handle_packet_counters_advance_only_on_ok_witness :
    (X_SOH = X_SOH ∨ X_SOH = X_STX) ∧
    (xmodem_handle_packet session_start.globals X_SOH
      (good_packet 1 zero_payload)).globals.xmodem_packet_number = 2 ∧
    (xmodem_handle_packet session_start.globals X_SOH
      (good_packet 1 zero_payload)).globals.xmodem_actual_flash_address
        = FLASH_APP_START_ADDRESS + packet_size X_SOH :=
  ⟨Or.inl rfl,
    ((handle_packet_counters_advance_only_on_ok session_start.globals X_SOH
      (good_packet 1 zero_payload) (Or.inl rfl)).2.2.2 rfl (by decide!)).2⟩

/-! ## Correctly framed packets -/

theorem crc_loop_append (p q : List Nat) (crc : Nat) :
    xmodem_calc_crc_loop (p ++ q) p.length crc = xmodem_calc_crc_loop p p.length crc := by
  induction p generalizing crc with
  | nil => rfl
  | cons b rest ih =>
    simp only [List.cons_append, List.length_cons, xmodem_calc_crc_loop, List.tail_cons,
      List.headD_cons]
    exact ih _

theorem big_endian_join (c : Nat) (hc : c < 65536) :
    (((c >>> 8) <<< 8) ||| (c &&& 0xFF)) % 65536 = c := by
  have h255 : (0xFF : Nat) = 2 ^ 8 - 1 := by norm_num
  rw [h255, Nat.and_pow_two_sub_one_eq_mod, Nat.shiftRight_eq_div_pow, Nat.shiftLeft_eq,
    Nat.mul_comm (c / 2 ^ 8) (2 ^ 8), ← Nat.mul_add_lt_is_or (Nat.mod_lt _ (by norm_num)),
    Nat.div_add_mod]
  exact Nat.mod_eq_of_lt hc

theorem frame_getD_number (n : Nat) (p : List Nat) : (frame n p).getD 0 0 = n := rfl

theorem frame_getD_complement (n : Nat) (p : List Nat) : (frame n p).getD 1 0 = 255 - n := rfl

theorem frame_drop_data (n : Nat) (p : List Nat) :
    (frame n p).drop X_PACKET_DATA_INDEX =
      p ++ [xmodem_calc_crc p p.length >>> 8, xmodem_calc_crc p p.length &&& 0xFF] := by
  simp [frame, X_PACKET_DATA_INDEX]

theorem frame_crc_calculated (n : Nat) (p : List Nat) :
    crc_calculated (frame n p) p.length = xmodem_calc_crc p p.length := by
  unfold crc_calculated
  rw [frame_drop_data]
  exact crc_loop_append p _ 0

theorem getD_append_add (p q : List Nat) (k d : Nat) :
    (p ++ q).getD (p.length + k) d = q.getD k d := by
  induction p with
  | nil => simp
  | cons b rest ih =>
    have h : (b :: rest).length + k = (rest.length + k) + 1 := by
      rw [List.length_cons]; omega
    rw [h, List.cons_append, List.getD_cons_succ, ih]

theorem frame_getD_crc (n : Nat) (p : List Nat) (k : Nat) :
    (frame n p).getD (p.length + 2 + k) 0 =
      [xmodem_calc_crc p p.length >>> 8, xmodem_calc_crc p p.length &&& 0xFF].getD k 0 := by
  have h : p.length + 2 + k = ([n, 255 - n] ++ p).length + k := by
    rw [List.length_append, List.length_cons, List.length_singleton]; omega
  rw [h]
  exact getD_append_add _ _ k 0

theorem frame_crc_received (n : Nat) (p : List Nat) :
    crc_received (frame n p) (p.length + 4) = xmodem_calc_crc p p.length := by
  have hhi : (frame n p).getD (p.length + 4 - 2) 0 = xmodem_calc_crc p p.length >>> 8 :=
    frame_getD_crc n p 0
  have hlo : (frame n p).getD (p.length + 4 - 1) 0 = xmodem_calc_crc p p.length &&& 0xFF :=
    frame_getD_crc n p 1
  unfold crc_received
  rw [hhi, hlo]
  exact big_endian_join _ (xmodem_calc_crc_lt p p.length)

theorem frame_write_data (n : Nat) (p : List Nat) (h4 : 4 * (p.length / 4) = p.length) :
    write_data (frame n p) p.length = p := by
  unfold write_data
  rw [frame_drop_data, h4]
  simp

/-- A correctly framed packet with the expected number, delivered and stored
without failure, is accepted: the erase is requested first if it is still
due, the payload is written at the current address and both counters move. -/
theorem handle_good_packet (g : Globals) (header n : Nat) (p : List Nat)
    (hh : header = X_SOH ∨ header = X_STX) (hsize : packet_size header = p.length)
    (hn : g.xmodem_packet_number = n) (hn255 : n ≤ 255) :
    xmodem_handle_packet g header (good_packet n p) =
      { status := X_OK
        globals :=
          { xmodem_packet_number := (n + 1) % 256
            xmodem_actual_flash_address := (g.xmodem_actual_flash_address + p.length) % 4294967296
            x_first_packet_received := true }
        events :=
          (if g.x_first_packet_received = false then [Event.flash_erase FLASH_APP_START_ADDRESS]
            else []) ++
          [Event.flash_write g.xmodem_actual_flash_address p (p.length / 4)] } := by
  have hlen : packet_length header = p.length + 4 := by
    unfold packet_length
    rw [hsize]
    rcases packet_size_data header hh with ⟨_, hs⟩ | ⟨_, hs⟩ <;>
      rw [hsize] at hs <;> rw [hs] <;> rfl
  have h4 : 4 * (p.length / 4) = p.length := by
    rcases packet_size_data header hh with ⟨_, hs⟩ | ⟨_, hs⟩ <;>
      rw [hsize] at hs <;> rw [hs]
  have hok : (xmodem_handle_packet g header (good_packet n p)).status = X_OK := by
    rw [handle_packet_status_ok_iff g header _ hh, hsize, hlen]
    refine ⟨Or.inr rfl, rfl, ?_, ?_, ?_, rfl⟩
    · rw [hn]; rfl
    · show (frame n p).getD 0 0 + (frame n p).getD 1 0 = 255
      rw [frame_getD_number, frame_getD_complement]; omega
    · show crc_calculated (frame n p) p.length = crc_received (frame n p) (p.length + 4)
      rw [frame_crc_calculated, frame_crc_received]
  have hev := handle_packet_events g header (good_packet n p) hh
  have hfirst := handle_packet_first g header (good_packet n p)
  have hcnt := (handle_packet_counters g header (good_packet n p)).1 hok
  have hwd : write_data (good_packet n p).received_data (packet_size header) = p := by
    rw [hsize]; exact frame_write_data n p h4
  rw [hwd, hsize] at hev
  rw [hsize, hn] at hcnt
  have hcond : (g.x_first_packet_received = true ∨ (good_packet n p).erase_status = FLASH_OK) :=
    Or.inr rfl
  rw [if_pos hcond] at hev
  have hf2 : (xmodem_handle_packet g header (good_packet n p)).globals.x_first_packet_received
      = true := by
    rw [hfirst]; simp [good_packet]
  cases hr : xmodem_handle_packet g header (good_packet n p) with
  | mk st gl ev =>
    rw [hr] at hok hev hcnt hf2
    cases gl with
    | mk num addr fst =>
      simp only at hok hev hcnt hf2
      rw [hok, hev, hcnt.1, hcnt.2, hf2]

/-- A loop pass that reads SOH and a correct 128-byte frame with the expected
number, while the error budget is not used up. -/
theorem receive_body_soh_good (s : Session) (n : Nat) (p : List Nat)
    (hlen : p.length = 128) (hn : s.globals.xmodem_packet_number = n) (hn255 : n ≤ 255)
    (he : s.error_number < X_MAX_ERRORS) :
    xmodem_receive_body s (soh_pass n p) =
      { status := s.status
        error_number := s.error_number
        globals :=
          { xmodem_packet_number := (n + 1) % 256
            xmodem_actual_flash_address := (s.globals.xmodem_actual_flash_address + 128) % 4294967296
            x_first_packet_received := true }
        trace := s.trace ++
          ((if s.globals.x_first_packet_received = false then
              [Event.flash_erase FLASH_APP_START_ADDRESS] else []) ++
            [Event.flash_write s.globals.xmodem_actual_flash_address p 32]) ++
          [Event.transmit_ch X_ACK]
        jumped := s.jumped } := by
  have hg := handle_good_packet s.globals X_SOH n p (Or.inl rfl) (by rw [hlen]; rfl) hn hn255
  rw [hlen] at hg
  have he2 : ¬ s.error_number ≥ X_MAX_ERRORS := by omega
  have hc : ¬ (UART_OK ≠ (soh_pass n p).comm_status ∧ s.globals.x_first_packet_received = false) := by
    intro h; exact h.1 rfl
  have hh : (soh_pass n p).header = X_SOH ∨ (soh_pass n p).header = X_STX := Or.inl rfl
  simp only [xmodem_receive_body, header_switch, if_neg he2, if_neg hc, if_pos hh]
  have hg2 : xmodem_handle_packet s.globals (soh_pass n p).header (soh_pass n p).packet = _ := hg
  rw [hg2]
  simp


theorem receive_loop_cons_running (s : Session) (it : Iter) (rest : List Iter)
    (hr : running s = true) :
    xmodem_receive_loop s (it :: rest) = xmodem_receive_loop (xmodem_receive_body s it) rest := by
  rw [xmodem_receive_loop, if_pos hr]

theorem receive_loop_not_running (s : Session) (inputs : List Iter) (hr : running s = false) :
    xmodem_receive_loop s inputs = s := by
  cases inputs with
  | nil => rfl
  | cons it rest => rw [xmodem_receive_loop, hr]; rfl

/-- A loop pass that successfully reads End Of Transmission while the error
budget is not used up. -/
theorem receive_body_eot (s : Session) (it : Iter) (hh : it.header = X_EOT)
    (hc : it.comm_status = UART_OK) (he : s.error_number < X_MAX_ERRORS) :
    xmodem_receive_body s it =
      { s with
        trace := s.trace ++ [Event.transmit_ch X_ACK, Event.transmit_str TEXT_UPDATED,
          Event.transmit_str TEXT_JUMPING, Event.flash_jump_to_app]
        jumped := true } := by
  have he2 : ¬ s.error_number ≥ X_MAX_ERRORS := by omega
  have hc2 : ¬ (UART_OK ≠ it.comm_status ∧ s.globals.x_first_packet_received = false) := by
    intro h; exact h.1 hc.symm
  have h1 : ¬ (it.header = X_SOH ∨ it.header = X_STX) := by
    rw [hh]; decide
  simp only [xmodem_receive_body, header_switch, if_neg he2, if_neg hc2, if_neg h1, if_pos hh]

/-- C5: three correct 128-byte frames numbered 1, 2, 3 followed by the byte
0x04, with a storage that always succeeds, give exactly this call trace: one
erase at the start address, then for each frame a write (at the start address,
+128, +256) followed by ACK, then the ACK for End Of Transmission, the two
texts and the handoff.  No cancel byte is transmitted. -/
theorem receive_three_frames_then_eot (p1 p2 p3 : List Nat)
    (h1 : p1.length = 128) (h2 : p2.length = 128) (h3 : p3.length = 128) :
    (xmodem_receive [soh_pass 1 p1, soh_pass 2 p2, soh_pass 3 p3, eot_pass]).trace =
      [Event.flash_erase FLASH_APP_START_ADDRESS,
        Event.flash_write FLASH_APP_START_ADDRESS p1 32,
        Event.transmit_ch X_ACK,
        Event.flash_write (FLASH_APP_START_ADDRESS + 128) p2 32,
        Event.transmit_ch X_ACK,
        Event.flash_write (FLASH_APP_START_ADDRESS + 256) p3 32,
        Event.transmit_ch X_ACK,
        Event.transmit_ch X_ACK,
        Event.transmit_str TEXT_UPDATED,
        Event.transmit_str TEXT_JUMPING,
        Event.flash_jump_to_app] ∧
    (xmodem_receive [soh_pass 1 p1, soh_pass 2 p2, soh_pass 3 p3, eot_pass]).jumped = true ∧
    Event.transmit_ch X_CAN ∉
      (xmodem_receive [soh_pass 1 p1, soh_pass 2 p2, soh_pass 3 p3, eot_pass]).trace := by
  have a1 : (FLASH_APP_START_ADDRESS + 128) % 4294967296 = FLASH_APP_START_ADDRESS + 128 := by
    norm_num [FLASH_APP_START_ADDRESS]
  have a2 : (FLASH_APP_START_ADDRESS + 128 + 128) % 4294967296
      = FLASH_APP_START_ADDRESS + 256 := by
    norm_num [FLASH_APP_START_ADDRESS]
  have a3 : (FLASH_APP_START_ADDRESS + 256 + 128) % 4294967296
      = FLASH_APP_START_ADDRESS + 384 := by
    norm_num [FLASH_APP_START_ADDRESS]
  have e1 : xmodem_receive_body session_start (soh_pass 1 p1) =
      { status := X_OK, error_number := 0,
        globals := { xmodem_packet_number := 2,
                     xmodem_actual_flash_address := FLASH_APP_START_ADDRESS + 128,
                     x_first_packet_received := true },
        trace := [Event.flash_erase FLASH_APP_START_ADDRESS,
          Event.flash_write FLASH_APP_START_ADDRESS p1 32, Event.transmit_ch X_ACK],
        jumped := false } := by
    refine (receive_body_soh_good session_start 1 p1 h1 rfl (by decide) Nat.zero_lt_one).trans ?_
    simp only [session_start, a1]
    rfl
  have e2 : xmodem_receive_body
      { status := X_OK, error_number := 0,
        globals := { xmodem_packet_number := 2,
                     xmodem_actual_flash_address := FLASH_APP_START_ADDRESS + 128,
                     x_first_packet_received := true },
        trace := [Event.flash_erase FLASH_APP_START_ADDRESS,
          Event.flash_write FLASH_APP_START_ADDRESS p1 32, Event.transmit_ch X_ACK],
        jumped := false } (soh_pass 2 p2) =
      { status := X_OK, error_number := 0,
        globals := { xmodem_packet_number := 3,
                     xmodem_actual_flash_address := FLASH_APP_START_ADDRESS + 256,
                     x_first_packet_received := true },
        trace := [Event.flash_erase FLASH_APP_START_ADDRESS,
          Event.flash_write FLASH_APP_START_ADDRESS p1 32, Event.transmit_ch X_ACK,
          Event.flash_write (FLASH_APP_START_ADDRESS + 128) p2 32, Event.transmit_ch X_ACK],
        jumped := false } := by
    refine (receive_body_soh_good
      { status := X_OK, error_number := 0,
        globals := { xmodem_packet_number := 2,
                     xmodem_actual_flash_address := FLASH_APP_START_ADDRESS + 128,
                     x_first_packet_received := true },
        trace := [Event.flash_erase FLASH_APP_START_ADDRESS,
          Event.flash_write FLASH_APP_START_ADDRESS p1 32, Event.transmit_ch X_ACK],
        jumped := false } 2 p2 h2 rfl (by decide) Nat.zero_lt_one).trans ?_
    simp only [a2]
    rfl
  have e3 : xmodem_receive_body
      { status := X_OK, error_number := 0,
        globals := { xmodem_packet_number := 3,
                     xmodem_actual_flash_address := FLASH_APP_START_ADDRESS + 256,
                     x_first_packet_received := true },
        trace := [Event.flash_erase FLASH_APP_START_ADDRESS,
          Event.flash_write FLASH_APP_START_ADDRESS p1 32, Event.transmit_ch X_ACK,
          Event.flash_write (FLASH_APP_START_ADDRESS + 128) p2 32, Event.transmit_ch X_ACK],
        jumped := false } (soh_pass 3 p3) =
      { status := X_OK, error_number := 0,
        globals := { xmodem_packet_number := 4,
                     xmodem_actual_flash_address := FLASH_APP_START_ADDRESS + 384,
                     x_first_packet_received := true },
        trace := [Event.flash_erase FLASH_APP_START_ADDRESS,
          Event.flash_write FLASH_APP_START_ADDRESS p1 32, Event.transmit_ch X_ACK,
          Event.flash_write (FLASH_APP_START_ADDRESS + 128) p2 32, Event.transmit_ch X_ACK,
          Event.flash_write (FLASH_APP_START_ADDRESS + 256) p3 32, Event.transmit_ch X_ACK],
        jumped := false } := by
    refine (receive_body_soh_good
      { status := X_OK, error_number := 0,
        globals := { xmodem_packet_number := 3,
                     xmodem_actual_flash_address := FLASH_APP_START_ADDRESS + 256,
                     x_first_packet_received := true },
        trace := [Event.flash_erase FLASH_APP_START_ADDRESS,
          Event.flash_write FLASH_APP_START_ADDRESS p1 32, Event.transmit_ch X_ACK,
          Event.flash_write (FLASH_APP_START_ADDRESS + 128) p2 32, Event.transmit_ch X_ACK],
        jumped := false } 3 p3 h3 rfl (by decide) Nat.zero_lt_one).trans ?_
    simp only [a3]
    rfl
  have e4 : xmodem_receive_body
      { status := X_OK, error_number := 0,
        globals := { xmodem_packet_number := 4,
                     xmodem_actual_flash_address := FLASH_APP_START_ADDRESS + 384,
                     x_first_packet_received := true },
        trace := [Event.flash_erase FLASH_APP_START_ADDRESS,
          Event.flash_write FLASH_APP_START_ADDRESS p1 32, Event.transmit_ch X_ACK,
          Event.flash_write (FLASH_APP_START_ADDRESS + 128) p2 32, Event.transmit_ch X_ACK,
          Event.flash_write (FLASH_APP_START_ADDRESS + 256) p3 32, Event.transmit_ch X_ACK],
        jumped := false } eot_pass =
      { status := X_OK, error_number := 0,
        globals := { xmodem_packet_number := 4,
                     xmodem_actual_flash_address := FLASH_APP_START_ADDRESS + 384,
                     x_first_packet_received := true },
        trace := [Event.flash_erase FLASH_APP_START_ADDRESS,
          Event.flash_write FLASH_APP_START_ADDRESS p1 32, Event.transmit_ch X_ACK,
          Event.flash_write (FLASH_APP_START_ADDRESS + 128) p2 32, Event.transmit_ch X_ACK,
          Event.flash_write (FLASH_APP_START_ADDRESS + 256) p3 32, Event.transmit_ch X_ACK,
          Event.transmit_ch X_ACK, Event.transmit_str TEXT_UPDATED,
          Event.transmit_str TEXT_JUMPING, Event.flash_jump_to_app],
        jumped := true } := by
    refine (receive_body_eot _ eot_pass rfl rfl Nat.zero_lt_one).trans ?_
    rfl
  have hrun : xmodem_receive [soh_pass 1 p1, soh_pass 2 p2, soh_pass 3 p3, eot_pass] =
      { status := X_OK, error_number := 0,
        globals := { xmodem_packet_number := 4,
                     xmodem_actual_flash_address := FLASH_APP_START_ADDRESS + 384,
                     x_first_packet_received := true },
        trace := [Event.flash_erase FLASH_APP_START_ADDRESS,
          Event.flash_write FLASH_APP_START_ADDRESS p1 32, Event.transmit_ch X_ACK,
          Event.flash_write (FLASH_APP_START_ADDRESS + 128) p2 32, Event.transmit_ch X_ACK,
          Event.flash_write (FLASH_APP_START_ADDRESS + 256) p3 32, Event.transmit_ch X_ACK,
          Event.transmit_ch X_ACK, Event.transmit_str TEXT_UPDATED,
          Event.transmit_str TEXT_JUMPING, Event.flash_jump_to_app],
        jumped := true } := by
    unfold xmodem_receive
    rewrite [receive_loop_cons_running _ _ _ (by rfl), e1]
    rewrite [receive_loop_cons_running _ _ _ (by rfl), e2]
    rewrite [receive_loop_cons_running _ _ _ (by rfl), e3]
    rewrite [receive_loop_cons_running _ _ _ (by rfl), e4]
    rfl
  rw [hrun]
  refine ⟨rfl, rfl, ?_⟩
  simp [X_CAN, X_ACK]

/-- Witness for C5: three frames carrying the zero payload. -/
theorem receive_three_frames_then_eot_witness :
    zero_payload.length = 128 ∧
    (xmodem_receive [soh_pass 1 zero_payload, soh_pass 2 zero_payload, soh_pass 3 zero_payload,
        eot_pass]).jumped = true :=
  ⟨rfl, (receive_three_frames_then_eot zero_payload zero_payload zero_payload rfl rfl rfl).2.1⟩

/-! ## One pass of the loop -/

/-- C6 (code defect): after one NAK the error count is X_MAX_ERRORS; the next
pass transmits the two cancel bytes and then still executes the `switch` for
the header it read: on End Of Transmission it sends ACK and the texts and calls
flash_jump_to_app, and on SOH it processes the packet (erase, write, ACK). -/
theorem abort_pass_still_executes_switch :
    (xmodem_receive [junk_pass]).error_number = X_MAX_ERRORS ∧
    (xmodem_receive [junk_pass, eot_pass]).trace =
      [Event.transmit_ch X_NAK, Event.transmit_ch X_CAN, Event.transmit_ch X_CAN,
        Event.transmit_ch X_ACK, Event.transmit_str TEXT_UPDATED,
        Event.transmit_str TEXT_JUMPING, Event.flash_jump_to_app] ∧
    (xmodem_receive [junk_pass, eot_pass]).jumped = true ∧
    (xmodem_receive [junk_pass, soh_pass 1 zero_payload]).trace =
      [Event.transmit_ch X_NAK, Event.transmit_ch X_CAN, Event.transmit_ch X_CAN,
        Event.flash_erase FLASH_APP_START_ADDRESS,
        Event.flash_write FLASH_APP_START_ADDRESS zero_payload 32,
        Event.transmit_ch X_ACK] := by
  decide!

theorem receive_body_eq_switch (s : Session) (it : Iter) :
    xmodem_receive_body s it =
      header_switch s it (if s.error_number ≥ X_MAX_ERRORS then X_ERROR else s.status)
        (s.trace ++ pass_prologue s it) := by
  unfold xmodem_receive_body pass_prologue
  by_cases h1 : UART_OK ≠ it.comm_status ∧ s.globals.x_first_packet_received = false
  · by_cases h2 : s.error_number ≥ X_MAX_ERRORS
    · simp only [if_pos h1, if_pos h2, List.append_assoc]
    · simp only [if_pos h1, if_neg h2, List.append_nil]
  · by_cases h2 : s.error_number ≥ X_MAX_ERRORS
    · simp only [if_neg h1, if_pos h2, List.nil_append]
    · simp only [if_neg h1, if_neg h2, List.append_nil]

theorem pass_prologue_count_can (s : Session) (it : Iter) :
    List.count (Event.transmit_ch X_CAN) (pass_prologue s it) =
      if s.error_number ≥ X_MAX_ERRORS then 2 else 0 := by
  unfold pass_prologue
  by_cases h1 : UART_OK ≠ it.comm_status ∧ s.globals.x_first_packet_received = false <;>
    by_cases h2 : s.error_number ≥ X_MAX_ERRORS <;>
    simp [h1, h2, X_C, X_CAN]

theorem pass_prologue_no_text (s : Session) (it : Iter) (x : String) :
    Event.transmit_str x ∉ pass_prologue s it := by
  unfold pass_prologue
  by_cases h1 : UART_OK ≠ it.comm_status ∧ s.globals.x_first_packet_received = false <;>
    by_cases h2 : s.error_number ≥ X_MAX_ERRORS <;>
    simp [h1, h2]

theorem pass_prologue_no_jump (s : Session) (it : Iter) :
    Event.flash_jump_to_app ∉ pass_prologue s it := by
  unfold pass_prologue
  by_cases h1 : UART_OK ≠ it.comm_status ∧ s.globals.x_first_packet_received = false <;>
    by_cases h2 : s.error_number ≥ X_MAX_ERRORS <;>
    simp [h1, h2]

theorem pass_prologue_no_flash (s : Session) (it : Iter) :
    ∀ e ∈ pass_prologue s it, is_erase e = false ∧ is_write e = false := by
  unfold pass_prologue
  by_cases h1 : UART_OK ≠ it.comm_status ∧ s.globals.x_first_packet_received = false <;>
    by_cases h2 : s.error_number ≥ X_MAX_ERRORS <;>
    simp [h1, h2, is_erase, is_write]

theorem handle_packet_events_flash (g : Globals) (header : Nat) (p : Packet) :
    ∀ e ∈ (xmodem_handle_packet g header p).events, is_erase e = true ∨ is_write e = true := by
  intro e he
  simp only [xmodem_handle_packet, List.mem_append] at he
  rcases he with h | h <;> split at h <;> simp_all [is_erase, is_write]

theorem handle_packet_events_no_text (g : Globals) (header : Nat) (p : Packet) (x : String) :
    Event.transmit_str x ∉ (xmodem_handle_packet g header p).events := by
  intro h
  rcases handle_packet_events_flash g header p _ h with h1 | h1 <;> simp [is_erase, is_write] at h1

theorem handle_packet_events_no_jump (g : Globals) (header : Nat) (p : Packet) :
    Event.flash_jump_to_app ∉ (xmodem_handle_packet g header p).events := by
  intro h
  rcases handle_packet_events_flash g header p _ h with h1 | h1 <;> simp [is_erase, is_write] at h1

theorem running_iff (s : Session) : running s = true ↔ s.status = X_OK ∧ s.jumped = false := by
  unfold running
  constructor
  · intro h
    simp only [Bool.and_eq_true, decide_eq_true_eq, Bool.not_eq_true'] at h
    exact ⟨h.1.symm, h.2⟩
  · rintro ⟨h1, h2⟩
    simp [h1, h2]

theorem returned_iff (s : Session) : returned s = true ↔ s.status ≠ X_OK ∧ s.jumped = false := by
  unfold returned
  constructor
  · intro h
    simp only [Bool.and_eq_true, Bool.not_eq_true', decide_eq_false_iff_not] at h
    exact ⟨fun e => h.1 e.symm, h.2⟩
  · rintro ⟨h1, h2⟩
    have h3 : ¬ X_OK = s.status := fun e => h1 e.symm
    simp [h3, h2]

theorem receive_loop_append (s : Session) (a b : List Iter) :
    xmodem_receive_loop s (a ++ b) = xmodem_receive_loop (xmodem_receive_loop s a) b := by
  induction a generalizing s with
  | nil => rfl
  | cons it rest ih =>
    by_cases hr : running s = true
    · rw [List.cons_append, receive_loop_cons_running _ _ _ hr,
        receive_loop_cons_running _ _ _ hr, ih]
    · have hr2 : running s = false := by simpa using hr
      rw [receive_loop_not_running _ _ hr2, receive_loop_not_running _ _ hr2,
        receive_loop_not_running _ _ hr2]

/-- What a pass does on an invalid event: it never hands off, it ends the loop
exactly when the error count had reached X_MAX_ERRORS, it counts the error,
and it transmits the two cancel bytes exactly in that case. -/
theorem receive_body_invalid (s : Session) (it : Iter) (hinv : invalid_event s.globals it) :
    (xmodem_receive_body s it).jumped = s.jumped ∧
    (xmodem_receive_body s it).status
      = (if s.error_number ≥ X_MAX_ERRORS then X_ERROR else s.status) ∧
    (xmodem_receive_body s it).error_number = (s.error_number + 1) % 256 ∧
    ∃ evs, (xmodem_receive_body s it).trace = s.trace ++ evs ∧
      List.count (Event.transmit_ch X_CAN) evs
        = (if s.error_number ≥ X_MAX_ERRORS then 2 else 0) ∧
      (∀ x, Event.transmit_str x ∉ evs) ∧ Event.flash_jump_to_app ∉ evs := by
  rw [receive_body_eq_switch]
  have hpc := pass_prologue_count_can s it
  have hpt := pass_prologue_no_text s it
  have hpj := pass_prologue_no_jump s it
  rcases hinv with ⟨hc, h1, h2, h3, h4⟩ | ⟨hh, hst⟩
  · have hd : ¬ (it.header = X_SOH ∨ it.header = X_STX) := by
      rintro (h | h)
      · exact h1 h
      · exact h2 h
    simp only [header_switch, if_neg hd, if_neg h3, if_neg h4, if_pos hc.symm]
    refine ⟨trivial, trivial, trivial, pass_prologue s it ++ [Event.transmit_ch X_NAK], ?_, ?_, ?_, ?_⟩
    · rw [List.append_assoc]
    · rw [List.count_append, hpc]
      simp [X_CAN, X_NAK]
    · intro x hx
      rw [List.mem_append] at hx
      rcases hx with hx | hx
      · exact hpt x hx
      · simp at hx
    · intro hx
      rw [List.mem_append] at hx
      rcases hx with hx | hx
      · exact hpj hx
      · simp at hx
  · have hst2 : ¬ X_OK = (xmodem_handle_packet s.globals it.header it.packet).status :=
      fun e => hst e.symm
    simp only [header_switch, if_pos hh, if_neg hst2]
    refine ⟨trivial, trivial, trivial,
      pass_prologue s it ++ (xmodem_handle_packet s.globals it.header it.packet).events
        ++ [Event.transmit_ch X_NAK], ?_, ?_, ?_, ?_⟩
    · simp only [List.append_assoc]
    · rw [List.count_append, List.count_append, hpc, handle_packet_events_no_transmit]
      simp [X_CAN, X_NAK]
    · intro x hx
      rw [List.mem_append, List.mem_append] at hx
      rcases hx with (hx | hx) | hx
      · exact hpt x hx
      · exact handle_packet_events_no_text _ _ _ x hx
      · simp at hx
    · intro hx
      rw [List.mem_append, List.mem_append] at hx
      rcases hx with (hx | hx) | hx
      · exact hpj hx
      · exact handle_packet_events_no_jump _ _ _ hx
      · simp at hx

/-! ## While the loop runs, nothing was cancelled and nothing was handed off -/

theorem quiet_nil : quiet [] := by
  simp [quiet]

theorem quiet_append (a b : List Event) (ha : quiet a) (hb : quiet b) : quiet (a ++ b) := by
  obtain ⟨a1, a2, a3⟩ := ha
  obtain ⟨b1, b2, b3⟩ := hb
  refine ⟨by rw [List.count_append, a1, b1], ?_, ?_⟩
  · intro x hx
    rw [List.mem_append] at hx
    rcases hx with hx | hx
    · exact a2 x hx
    · exact b2 x hx
  · intro hx
    rw [List.mem_append] at hx
    rcases hx with hx | hx
    · exact a3 hx
    · exact b3 hx

theorem quiet_ack : quiet [Event.transmit_ch X_ACK] := by
  simp [quiet, X_ACK, X_CAN]

theorem quiet_nak : quiet [Event.transmit_ch X_NAK] := by
  simp [quiet, X_NAK, X_CAN]

theorem quiet_handle_packet (g : Globals) (header : Nat) (p : Packet) :
    quiet (xmodem_handle_packet g header p).events :=
  ⟨handle_packet_events_no_transmit g header p X_CAN, handle_packet_events_no_text g header p,
    handle_packet_events_no_jump g header p⟩

theorem quiet_prologue (s : Session) (it : Iter) (he : ¬ s.error_number ≥ X_MAX_ERRORS) :
    quiet (pass_prologue s it) := by
  refine ⟨?_, pass_prologue_no_text s it, pass_prologue_no_jump s it⟩
  rw [pass_prologue_count_can, if_neg he]

theorem not_abort_of_status_ok (s : Session)
    (h : (if s.error_number ≥ X_MAX_ERRORS then X_ERROR else s.status) = X_OK) :
    ¬ s.error_number ≥ X_MAX_ERRORS := by
  intro ha
  rw [if_pos ha] at h
  exact absurd h (by decide)

theorem header_switch_running (s : Session) (it : Iter) (st : Nat) (tr : List Event)
    (hrun : running (header_switch s it st tr) = true) (hq : st = X_OK → quiet tr) :
    st = X_OK ∧ quiet (header_switch s it st tr).trace := by
  rw [running_iff] at hrun
  simp only [header_switch] at hrun ⊢
  split_ifs at hrun ⊢ with hd hok heot hcan hu
  · exact ⟨hrun.1, quiet_append _ _ (quiet_append _ _ (hq hrun.1) (quiet_handle_packet _ _ _))
      quiet_ack⟩
  · exact ⟨hrun.1, quiet_append _ _ (quiet_append _ _ (hq hrun.1) (quiet_handle_packet _ _ _))
      quiet_nak⟩
  · exact absurd hrun.2 (by simp)
  · exact absurd hrun.1 (show ¬ X_ERROR = X_OK by decide)
  · exact ⟨hrun.1, quiet_append _ _ (hq hrun.1) quiet_nak⟩
  · exact ⟨hrun.1, hq hrun.1⟩

theorem receive_body_quiet (s : Session) (it : Iter)
    (hrun : running (xmodem_receive_body s it) = true) (hq : quiet s.trace) :
    quiet (xmodem_receive_body s it).trace := by
  rw [receive_body_eq_switch] at hrun ⊢
  refine (header_switch_running s it _ _ hrun ?_).2
  intro hst
  exact quiet_append _ _ hq (quiet_prologue s it (not_abort_of_status_ok s hst))

theorem receive_loop_quiet (inputs : List Iter) (s : Session) (hq : quiet s.trace)
    (hrun : running (xmodem_receive_loop s inputs) = true) :
    quiet (xmodem_receive_loop s inputs).trace := by
  induction inputs generalizing s with
  | nil => exact hq
  | cons it rest ih =>
    by_cases hr : running s = true
    · rw [receive_loop_cons_running _ _ _ hr] at hrun ⊢
      by_cases hr1 : running (xmodem_receive_body s it) = true
      · exact ih _ (receive_body_quiet s it hr1 hq) hrun
      · have hr2 : running (xmodem_receive_body s it) = false := by simpa using hr1
        rw [receive_loop_not_running _ _ hr2] at hrun
        exact absurd hrun hr1
    · have hr2 : running s = false := by simpa using hr
      rw [receive_loop_not_running _ _ hr2]
      exact hq

/-- C7: when a run of xmodem_receive that is still in its loop meets two
consecutive invalid events (X_MAX_ERRORS + 1 of them: successfully read bytes
that are no header, or data packets that fail validation), xmodem_receive
returns without handoff, whatever input would follow; the whole trace holds
exactly two cancel bytes, no text and no handoff. -/
theorem receive_two_invalid_events_abort (pre post : List Iter) (e1 e2 : Iter)
    (hrun : running (xmodem_receive pre) = true)
    (h1 : invalid_event (xmodem_receive pre).globals e1)
    (h2 : invalid_event (xmodem_receive_body (xmodem_receive pre) e1).globals e2) :
    returned (xmodem_receive (pre ++ e1 :: e2 :: post)) = true ∧
    List.count (Event.transmit_ch X_CAN) (xmodem_receive (pre ++ e1 :: e2 :: post)).trace
      = 2 ∧
    (∀ x, Event.transmit_str x ∉ (xmodem_receive (pre ++ e1 :: e2 :: post)).trace) ∧
    Event.flash_jump_to_app ∉ (xmodem_receive (pre ++ e1 :: e2 :: post)).trace := by
  have hq : quiet (xmodem_receive pre).trace :=
    receive_loop_quiet pre session_start quiet_nil hrun
  obtain ⟨q1, q2, q3⟩ := hq
  have hrun2 := (running_iff _).1 hrun
  obtain ⟨b1, b2, b3, evs, b4, b5, b6, b7⟩ := receive_body_invalid (xmodem_receive pre) e1 h1
  have hstep : xmodem_receive (pre ++ e1 :: e2 :: post) =
      xmodem_receive_loop (xmodem_receive_body (xmodem_receive pre) e1) (e2 :: post) := by
    unfold xmodem_receive at hrun ⊢
    rw [receive_loop_append, receive_loop_cons_running _ _ _ hrun]
  rw [hstep]
  by_cases ha : (xmodem_receive pre).error_number ≥ X_MAX_ERRORS
  · rw [if_pos ha] at b2 b5
    have hnr : running (xmodem_receive_body (xmodem_receive pre) e1) = false := by
      unfold running
      rw [b2]
      rfl
    rw [receive_loop_not_running _ _ hnr, returned_iff, b1, b2, b4, List.count_append, q1, b5]
    refine ⟨⟨by decide, hrun2.2⟩, rfl, ?_, ?_⟩
    · intro x hx
      rw [List.mem_append] at hx
      rcases hx with hx | hx
      · exact q2 x hx
      · exact b6 x hx
    · intro hx
      rw [List.mem_append] at hx
      rcases hx with hx | hx
      · exact q3 hx
      · exact b7 hx
  · rw [if_neg ha] at b2 b5
    have he0 : (xmodem_receive pre).error_number = 0 := by
      unfold X_MAX_ERRORS at ha
      omega
    have hr1 : running (xmodem_receive_body (xmodem_receive pre) e1) = true := by
      rw [running_iff, b1, b2]
      exact hrun2
    obtain ⟨c1, c2, c3, evs2, c4, c5, c6, c7⟩ :=
      receive_body_invalid (xmodem_receive_body (xmodem_receive pre) e1) e2 h2
    have ha2 : (xmodem_receive_body (xmodem_receive pre) e1).error_number ≥ X_MAX_ERRORS := by
      rw [b3, he0]
      decide
    rw [if_pos ha2] at c2 c5
    have hnr : running (xmodem_receive_body (xmodem_receive_body (xmodem_receive pre) e1) e2)
        = false := by
      unfold running
      rw [c2]
      rfl
    rw [receive_loop_cons_running _ _ _ hr1, receive_loop_not_running _ _ hnr, returned_iff,
      c1, c2, c4, b1, b4, List.count_append, List.count_append, q1, b5, c5]
    refine ⟨⟨by decide, hrun2.2⟩, rfl, ?_, ?_⟩
    · intro x hx
      rw [List.mem_append, List.mem_append] at hx
      rcases hx with (hx | hx) | hx
      · exact q2 x hx
      · exact b6 x hx
      · exact c6 x hx
    · intro hx
      rw [List.mem_append, List.mem_append] at hx
      rcases hx with (hx | hx) | hx
      · exact q3 hx
      · exact b7 hx
      · exact c7 hx

/-- Witness for C7: two successfully read bytes that are no header, at the
start of a session. -/
theorem receive_two_invalid_events_abort_witness :
    running (xmodem_receive []) = true ∧
    returned (xmodem_receive ([] ++ junk_pass :: junk_pass :: [])) = true ∧
    List.count (Event.transmit_ch X_CAN)
      (xmodem_receive ([] ++ junk_pass :: junk_pass :: [])).trace = 2 :=
  ⟨rfl,
    (receive_two_invalid_events_abort [] [] junk_pass junk_pass rfl
      (Or.inl (by decide)) (Or.inl (by decide))).1,
    (receive_two_invalid_events_abort [] [] junk_pass junk_pass rfl
      (Or.inl (by decide)) (Or.inl (by decide))).2.1⟩

/-! ## Header timeouts after the first packet -/

/-- C8 (counterexample): after a first accepted frame, header reads that time
out do not raise the error count (it stays 0 instead of growing by one), and
the session neither aborts nor transmits a cancel byte. -/
theorem header_timeout_after_first_packet_not_counted :
    (xmodem_receive [soh_pass 1 zero_payload]).globals.x_first_packet_received = true ∧
    (xmodem_receive [soh_pass 1 zero_payload, timeout_pass]).error_number
      ≠ (xmodem_receive [soh_pass 1 zero_payload]).error_number + 1 ∧
    (xmodem_receive [soh_pass 1 zero_payload, timeout_pass, timeout_pass]).error_number = 0 ∧
    running (xmodem_receive [soh_pass 1 zero_payload, timeout_pass, timeout_pass]) = true ∧
    List.count (Event.transmit_ch X_CAN)
      (xmodem_receive [soh_pass 1 zero_payload, timeout_pass, timeout_pass]).trace = 0 := by
  decide!

theorem receive_body_timeout_ignored (s : Session) (it : Iter)
    (hfirst : s.globals.x_first_packet_received = true) (he : s.error_number < X_MAX_ERRORS)
    (hit : it.comm_status ≠ UART_OK ∧ it.header ≠ X_SOH ∧ it.header ≠ X_STX ∧
      it.header ≠ X_EOT ∧ it.header ≠ X_CAN) :
    xmodem_receive_body s it = s := by
  obtain ⟨hc, h1, h2, h3, h4⟩ := hit
  have hd : ¬ (it.header = X_SOH ∨ it.header = X_STX) := by
    rintro (h | h)
    · exact h1 h
    · exact h2 h
  have hc2 : ¬ UART_OK = it.comm_status := fun e => hc e.symm
  have he2 : ¬ s.error_number ≥ X_MAX_ERRORS := by omega
  have hsol : ¬ (UART_OK ≠ it.comm_status ∧ s.globals.x_first_packet_received = false) := by
    rintro ⟨_, hf⟩
    rw [hfirst] at hf
    exact absurd hf (by decide)
  simp only [xmodem_receive_body, header_switch, if_neg hd, if_neg h3, if_neg h4, if_neg hc2,
    if_neg he2, if_neg hsol]

/-- C8 (amended): with the first packet received and the error count below
X_MAX_ERRORS, a pass whose header read fails and leaves a byte that is none of
SOH, STX, EOT, CAN (such as the initial 0x00) changes nothing: no call is
made and the error count, the counters and the status stay as they were.
Hence any number of such passes in a row leaves the session in its loop. -/
theorem header_timeout_after_first_packet_ignored (s : Session) (its : List Iter)
    (hfirst : s.globals.x_first_packet_received = true) (he : s.error_number < X_MAX_ERRORS)
    (hits : ∀ it ∈ its, it.comm_status ≠ UART_OK ∧ it.header ≠ X_SOH ∧ it.header ≠ X_STX ∧
      it.header ≠ X_EOT ∧ it.header ≠ X_CAN) :
    (∀ it ∈ its, xmodem_receive_body s it = s) ∧ xmodem_receive_loop s its = s := by
  refine ⟨fun it hit => receive_body_timeout_ignored s it hfirst he (hits it hit), ?_⟩
  induction its with
  | nil => rfl
  | cons it rest ih =>
    rw [xmodem_receive_loop]
    split
    · rw [receive_body_timeout_ignored s it hfirst he (hits it (List.mem_cons_self _ _))]
      exact ih (fun x hx => hits x (List.mem_cons_of_mem _ hx))
    · rfl

/-- Witness for C8 (amended): two header timeouts after the first accepted frame. -/
theorem header_timeout_after_first_packet_ignored_witness :
    (xmodem_receive [soh_pass 1 zero_payload]).globals.x_first_packet_received = true ∧
    (xmodem_receive [soh_pass 1 zero_payload]).error_number < X_MAX_ERRORS ∧
    xmodem_receive_loop (xmodem_receive [soh_pass 1 zero_payload]) [timeout_pass, timeout_pass]
      = xmodem_receive [soh_pass 1 zero_payload] :=
  ⟨by decide!, by decide!,
    (header_timeout_after_first_packet_ignored (xmodem_receive [soh_pass 1 zero_payload])
      [timeout_pass, timeout_pass] (by decide!) (by decide!) (by decide!)).2⟩

/-! ## A failed erase -/

/-- C10 (counterexample): the erase of the first data frame fails, and the next
data packet of the same session requests the erase again; that erase succeeds
and the packet is accepted.  The trace holds two erase requests. -/
theorem failed_erase_is_requested_again :
    (xmodem_receive [erase_fail_pass, soh_pass 1 zero_payload]).trace =
      [Event.flash_erase FLASH_APP_START_ADDRESS, Event.transmit_ch X_NAK,
        Event.transmit_ch X_CAN, Event.transmit_ch X_CAN,
        Event.flash_erase FLASH_APP_START_ADDRESS,
        Event.flash_write FLASH_APP_START_ADDRESS zero_payload 32,
        Event.transmit_ch X_ACK] ∧
    List.countP is_erase (xmodem_receive [erase_fail_pass, soh_pass 1 zero_payload]).trace = 2 := by
  decide!

/-- C10 (amended): when the erase requested for a data frame fails,
xmodem_handle_packet returns X_ERROR_FLASH, requests no write and leaves the
globals (first-packet flag, packet number, address) unchanged; the next data
packet handled requests the erase again as its first call. -/
theorem failed_erase_rejects_frame_and_stays_due (g : Globals) (header header2 : Nat)
    (p p2 : Packet) (hh : header = X_SOH ∨ header = X_STX)
    (hh2 : header2 = X_SOH ∨ header2 = X_STX)
    (hg : g.x_first_packet_received = false) (he : p.erase_status ≠ FLASH_OK) :
    (xmodem_handle_packet g header p).status = X_ERROR_FLASH ∧
    (xmodem_handle_packet g header p).events = [Event.flash_erase FLASH_APP_START_ADDRESS] ∧
    (xmodem_handle_packet g header p).globals = g ∧
    (xmodem_handle_packet (xmodem_handle_packet g header p).globals header2 p2).events.head?
      = some (Event.flash_erase FLASH_APP_START_ADDRESS) := by
  have h0 := header_status_data header hh
  have h02 := header_status_data header2 hh2
  have he2 : ¬ FLASH_OK = p.erase_status := fun e => he e.symm
  have hst : (xmodem_handle_packet g header p).status = X_ERROR_FLASH := by
    simp only [xmodem_handle_packet, h0, hg, if_true, if_neg he2]
    rfl
  have hgl : (xmodem_handle_packet g header p).globals = g := by
    have hc := (handle_packet_counters g header p).2 (by rw [hst]; decide)
    have hf := handle_packet_first g header p
    rw [hg] at hf
    simp only [he2, decide_False, Bool.or_false] at hf
    cases hr : (xmodem_handle_packet g header p).globals with
    | mk n a f =>
      rw [hr] at hc hf
      simp only at hc hf
      cases g with
      | mk n0 a0 f0 =>
        simp only at hc hg
        rw [hc.1, hc.2, hf, hg]
  have hev := handle_packet_events g header p hh
  have hcond : ¬ (g.x_first_packet_received = true ∨ p.erase_status = FLASH_OK) := by
    rintro (h | h)
    · rw [hg] at h; exact absurd h (by decide)
    · exact he h
  rw [if_pos hg, if_neg hcond] at hev
  refine ⟨hst, hev, hgl, ?_⟩
  rw [hgl, handle_packet_events g header2 p2 hh2, if_pos hg]
  rfl

/-- Witness for C10 (amended): the first SOH frame of a session with a failing
erase. -/
theorem failed_erase_rejects_frame_and_stays_due_witness :
    session_start.globals.x_first_packet_received = false ∧
    erase_fail_pass.packet.erase_status ≠ FLASH_OK ∧
    (xmodem_handle_packet session_start.globals X_SOH erase_fail_pass.packet).status
      = X_ERROR_FLASH :=
  ⟨rfl, by decide,
    (failed_erase_rejects_frame_and_stays_due session_start.globals X_SOH X_SOH
      erase_fail_pass.packet (good_packet 1 zero_payload) (Or.inl rfl) (Or.inl rfl) rfl
      (by decide)).1⟩

/-! ## The erase is requested by the first data frame -/

theorem receive_body_data (s : Session) (it : Iter)
    (hd : it.header = X_SOH ∨ it.header = X_STX) :
    (xmodem_receive_body s it).globals
      = (xmodem_handle_packet s.globals it.header it.packet).globals ∧
    (xmodem_receive_body s it).trace =
      s.trace ++ pass_prologue s it
        ++ (xmodem_handle_packet s.globals it.header it.packet).events
        ++ [Event.transmit_ch
            (if X_OK = (xmodem_handle_packet s.globals it.header it.packet).status then X_ACK
              else X_NAK)] := by
  rw [receive_body_eq_switch]
  simp only [header_switch, if_pos hd]
  split <;> exact ⟨rfl, rfl⟩

theorem header_switch_no_data (s : Session) (it : Iter) (st : Nat) (tr : List Event)
    (hd : ¬ (it.header = X_SOH ∨ it.header = X_STX)) :
    (header_switch s it st tr).globals = s.globals ∧
    ∃ evs, (header_switch s it st tr).trace = tr ++ evs ∧
      ∀ e ∈ evs, is_erase e = false ∧ is_write e = false := by
  simp only [header_switch, if_neg hd]
  split_ifs
  · refine ⟨rfl, [Event.transmit_ch X_ACK, Event.transmit_str TEXT_UPDATED,
      Event.transmit_str TEXT_JUMPING, Event.flash_jump_to_app], rfl, ?_⟩
    intro e he
    simp only [List.mem_cons, List.mem_singleton, List.not_mem_nil, or_false] at he
    rcases he with rfl | rfl | rfl | rfl <;> exact ⟨rfl, rfl⟩
  · exact ⟨rfl, [], (List.append_nil _).symm, fun e he => absurd he (List.not_mem_nil e)⟩
  · refine ⟨rfl, [Event.transmit_ch X_NAK], rfl, ?_⟩
    intro e he
    simp only [List.mem_singleton] at he
    subst he
    exact ⟨rfl, rfl⟩
  · exact ⟨rfl, [], (List.append_nil _).symm, fun e he => absurd he (List.not_mem_nil e)⟩

theorem receive_body_no_data (s : Session) (it : Iter)
    (hd : ¬ (it.header = X_SOH ∨ it.header = X_STX)) :
    (xmodem_receive_body s it).globals = s.globals ∧
    ∃ evs, (xmodem_receive_body s it).trace = s.trace ++ evs ∧
      ∀ e ∈ evs, is_erase e = false ∧ is_write e = false := by
  rw [receive_body_eq_switch]
  obtain ⟨hg, evs, ht, hn⟩ := header_switch_no_data s it
    (if s.error_number ≥ X_MAX_ERRORS then X_ERROR else s.status)
    (s.trace ++ pass_prologue s it) hd
  refine ⟨hg, pass_prologue s it ++ evs, by rw [ht, List.append_assoc], ?_⟩
  intro e he
  rw [List.mem_append] at he
  rcases he with he | he
  · exact pass_prologue_no_flash s it e he
  · exact hn e he

theorem receive_body_trace_grows (s : Session) (it : Iter) :
    ∃ evs, (xmodem_receive_body s it).trace = s.trace ++ evs := by
  by_cases hd : it.header = X_SOH ∨ it.header = X_STX
  · exact ⟨_, by rw [(receive_body_data s it hd).2, List.append_assoc, List.append_assoc]⟩
  · obtain ⟨_, evs, h, _⟩ := receive_body_no_data s it hd
    exact ⟨evs, h⟩

theorem receive_loop_trace_grows (inputs : List Iter) (s : Session) :
    ∃ evs, (xmodem_receive_loop s inputs).trace = s.trace ++ evs := by
  induction inputs generalizing s with
  | nil => exact ⟨[], (List.append_nil _).symm⟩
  | cons it rest ih =>
    rw [xmodem_receive_loop]
    split
    · obtain ⟨e1, h1⟩ := receive_body_trace_grows s it
      obtain ⟨e2, h2⟩ := ih (xmodem_receive_body s it)
      exact ⟨e1 ++ e2, by rw [h2, h1, List.append_assoc]⟩
    · exact ⟨[], (List.append_nil _).symm⟩

theorem receive_body_erased (s : Session) (it : Iter)
    (hf : s.globals.x_first_packet_received = true) :
    (xmodem_receive_body s it).globals.x_first_packet_received = true ∧
    ∃ evs, (xmodem_receive_body s it).trace = s.trace ++ evs ∧ ∀ e ∈ evs, is_erase e = false := by
  by_cases hd : it.header = X_SOH ∨ it.header = X_STX
  · obtain ⟨hg, ht⟩ := receive_body_data s it hd
    have hev := handle_packet_events s.globals it.header it.packet hd
    have hnf : ¬ s.globals.x_first_packet_received = false := by rw [hf]; decide
    rw [if_neg hnf, if_pos (Or.inl hf), List.nil_append] at hev
    refine ⟨by rw [hg, handle_packet_first, hf]; rfl, _, by
      rw [ht, List.append_assoc, List.append_assoc], ?_⟩
    intro e he
    rw [hev, List.mem_append, List.mem_append] at he
    rcases he with he | he | he
    · exact (pass_prologue_no_flash s it e he).1
    · simp only [List.mem_singleton] at he
      subst he
      rfl
    · simp only [List.mem_singleton] at he
      subst he
      rfl
  · obtain ⟨hg, evs, ht, hn⟩ := receive_body_no_data s it hd
    exact ⟨by rw [hg]; exact hf, evs, ht, fun e he => (hn e he).1⟩

theorem receive_loop_erased (inputs : List Iter) (s : Session)
    (hf : s.globals.x_first_packet_received = true) :
    ∃ evs, (xmodem_receive_loop s inputs).trace = s.trace ++ evs ∧
      ∀ e ∈ evs, is_erase e = false := by
  induction inputs generalizing s with
  | nil => exact ⟨[], (List.append_nil _).symm, fun e he => absurd he (List.not_mem_nil e)⟩
  | cons it rest ih =>
    rw [xmodem_receive_loop]
    split
    · obtain ⟨hf1, e1, h1, n1⟩ := receive_body_erased s it hf
      obtain ⟨e2, h2, n2⟩ := ih (xmodem_receive_body s it) hf1
      refine ⟨e1 ++ e2, by rw [h2, h1, List.append_assoc], ?_⟩
      intro e he
      rw [List.mem_append] at he
      rcases he with he | he
      · exact n1 e he
      · exact n2 e he
    · exact ⟨[], (List.append_nil _).symm, fun e he => absurd he (List.not_mem_nil e)⟩

theorem receive_loop_no_data (inputs : List Iter) (s : Session)
    (hin : ∀ it ∈ inputs, it.header ≠ X_SOH ∧ it.header ≠ X_STX) :
    (xmodem_receive_loop s inputs).globals = s.globals ∧
    ∃ evs, (xmodem_receive_loop s inputs).trace = s.trace ++ evs ∧
      ∀ e ∈ evs, is_erase e = false ∧ is_write e = false := by
  induction inputs generalizing s with
  | nil => exact ⟨rfl, [], (List.append_nil _).symm, fun e he => absurd he (List.not_mem_nil e)⟩
  | cons it rest ih =>
    rw [xmodem_receive_loop]
    split
    · have hd : ¬ (it.header = X_SOH ∨ it.header = X_STX) := by
        have := hin it (List.mem_cons_self _ _)
        rintro (h | h)
        · exact this.1 h
        · exact this.2 h
      obtain ⟨hg1, e1, h1, n1⟩ := receive_body_no_data s it hd
      obtain ⟨hg2, e2, h2, n2⟩ := ih (xmodem_receive_body s it)
        (fun x hx => hin x (List.mem_cons_of_mem _ hx))
      refine ⟨by rw [hg2, hg1], e1 ++ e2, by rw [h2, h1, List.append_assoc], ?_⟩
      intro e he
      rw [List.mem_append] at he
      rcases he with he | he
      · exact n1 e he
      · exact n2 e he
    · exact ⟨rfl, [], (List.append_nil _).symm, fun e he => absurd he (List.not_mem_nil e)⟩

theorem countP_erase_eq_zero (l : List Event) (h : ∀ e ∈ l, is_erase e = false) :
    List.countP is_erase l = 0 := by
  rw [List.countP_eq_zero]
  intro e he
  rw [h e he]
  decide

/-- C9: in a run whose passes before `d` carry no data header and leave the
loop running, the first data frame `d` makes the session request flash_erase
at the start address, with no erase and no write requested before it, whether
or not the frame passes validation.  When that erase succeeds, no other erase
is requested in the rest of the run, whatever follows: the trace of the
session holds exactly one erase. -/
theorem erase_requested_by_first_data_frame (pre post : List Iter) (d : Iter)
    (hpre : ∀ it ∈ pre, it.header ≠ X_SOH ∧ it.header ≠ X_STX)
    (hrun : running (xmodem_receive pre) = true)
    (hd : d.header = X_SOH ∨ d.header = X_STX) :
    (∃ t1 t2, (xmodem_receive (pre ++ d :: post)).trace
        = t1 ++ Event.flash_erase FLASH_APP_START_ADDRESS :: t2 ∧
      (∀ e ∈ t1, is_erase e = false ∧ is_write e = false) ∧
      (d.packet.erase_status = FLASH_OK → ∀ e ∈ t2, is_erase e = false)) ∧
    (d.packet.erase_status = FLASH_OK →
      List.countP is_erase (xmodem_receive (pre ++ d :: post)).trace = 1) := by
  obtain ⟨hg0, evs0, ht0, hn0⟩ := receive_loop_no_data pre session_start hpre
  have hf0 : (xmodem_receive pre).globals.x_first_packet_received = false := by
    unfold xmodem_receive
    rw [hg0]
    rfl
  have hflash0 : ∀ e ∈ (xmodem_receive pre).trace, is_erase e = false ∧ is_write e = false := by
    intro e he
    unfold xmodem_receive at he
    rw [ht0] at he
    exact hn0 e (by simpa [session_start] using he)
  have hstep : xmodem_receive (pre ++ d :: post) =
      xmodem_receive_loop (xmodem_receive_body (xmodem_receive pre) d) post := by
    unfold xmodem_receive at hrun ⊢
    rw [receive_loop_append, receive_loop_cons_running _ _ _ hrun]
  obtain ⟨hg1, ht1⟩ := receive_body_data (xmodem_receive pre) d hd
  have hev := handle_packet_events (xmodem_receive pre).globals d.header d.packet hd
  rw [if_pos hf0] at hev
  obtain ⟨evs2, ht2⟩ := receive_loop_trace_grows post (xmodem_receive_body (xmodem_receive pre) d)
  have htrace : (xmodem_receive (pre ++ d :: post)).trace =
      ((xmodem_receive pre).trace ++ pass_prologue (xmodem_receive pre) d) ++
        Event.flash_erase FLASH_APP_START_ADDRESS ::
          ((if (xmodem_receive pre).globals.x_first_packet_received = true ∨
                d.packet.erase_status = FLASH_OK then
              [Event.flash_write (xmodem_receive pre).globals.xmodem_actual_flash_address
                (write_data d.packet.received_data (packet_size d.header))
                (packet_size d.header / 4)]
            else []) ++
            [Event.transmit_ch
              (if X_OK = (xmodem_handle_packet (xmodem_receive pre).globals d.header
                  d.packet).status then X_ACK else X_NAK)] ++ evs2) := by
    rw [hstep, ht2, ht1, hev]
    simp only [List.append_assoc, List.singleton_append, List.cons_append, List.nil_append]
  have ht1flash : ∀ e ∈ (xmodem_receive pre).trace ++ pass_prologue (xmodem_receive pre) d,
      is_erase e = false ∧ is_write e = false := by
    intro e he
    rw [List.mem_append] at he
    rcases he with he | he
    · exact hflash0 e he
    · exact pass_prologue_no_flash _ _ e he
  have ht2erase : d.packet.erase_status = FLASH_OK → ∀ e ∈
      ((if (xmodem_receive pre).globals.x_first_packet_received = true ∨
                d.packet.erase_status = FLASH_OK then
              [Event.flash_write (xmodem_receive pre).globals.xmodem_actual_flash_address
                (write_data d.packet.received_data (packet_size d.header))
                (packet_size d.header / 4)]
            else []) ++
            [Event.transmit_ch
              (if X_OK = (xmodem_handle_packet (xmodem_receive pre).globals d.header
                  d.packet).status then X_ACK else X_NAK)] ++ evs2), is_erase e = false := by
    intro hok e he
    have hf1 : (xmodem_receive_body (xmodem_receive pre) d).globals.x_first_packet_received
        = true := by
      rw [hg1, handle_packet_first, hok]
      simp
    obtain ⟨evs3, ht3, hn3⟩ := receive_loop_erased post _ hf1
    have heq : evs2 = evs3 := List.append_cancel_left (ht2.symm.trans ht3)
    rw [List.mem_append, List.mem_append] at he
    rcases he with (he | he) | he
    · rw [if_pos (Or.inr hok)] at he
      simp only [List.mem_singleton] at he
      subst he
      rfl
    · simp only [List.mem_singleton] at he
      subst he
      rfl
    · rw [heq] at he
      exact hn3 e he
  refine ⟨⟨_, _, htrace, ht1flash, ht2erase⟩, ?_⟩
  intro hok
  rw [htrace, List.countP_append, List.countP_cons_of_pos _ _ (by rfl),
    countP_erase_eq_zero _ (fun e he => (ht1flash e he).1),
    countP_erase_eq_zero _ (ht2erase hok)]

/-- Witness for C9: a header timeout, then a frame with a wrong CRC whose erase
succeeds, then a correct frame. -/
theorem erase_requested_by_first_data_frame_witness :
    running (xmodem_receive [timeout_pass]) = true ∧
    List.countP is_erase
      (xmodem_receive ([timeout_pass] ++
        { comm_status := UART_OK, header := X_SOH, packet := bad_crc_packet }
          :: [soh_pass 1 zero_payload])).trace = 1 :=
  ⟨by decide!,
    (erase_requested_by_first_data_frame [timeout_pass] [soh_pass 1 zero_payload]
      { comm_status := UART_OK, header := X_SOH, packet := bad_crc_packet }
      (by decide!) (by decide!) (Or.inl rfl)).2 rfl⟩

/-! ## No write without a successful erase -/

theorem receive_body_erase_still_due (s : Session) (it : Iter)
    (hf : s.globals.x_first_packet_received = false)
    (hne : ¬ ((it.header = X_SOH ∨ it.header = X_STX) ∧ it.packet.erase_status = FLASH_OK)) :
    (xmodem_receive_body s it).globals.x_first_packet_received = false ∧
    ∃ evs, (xmodem_receive_body s it).trace = s.trace ++ evs ∧ ∀ e ∈ evs, is_write e = false := by
  by_cases hd : it.header = X_SOH ∨ it.header = X_STX
  · have he : ¬ it.packet.erase_status = FLASH_OK := fun h => hne ⟨hd, h⟩
    have he2 : ¬ FLASH_OK = it.packet.erase_status := fun h => he h.symm
    obtain ⟨hg, ht⟩ := receive_body_data s it hd
    have hev := handle_packet_events s.globals it.header it.packet hd
    have hcond : ¬ (s.globals.x_first_packet_received = true ∨ it.packet.erase_status = FLASH_OK) := by
      rintro (h | h)
      · rw [hf] at h; exact absurd h (by decide)
      · exact he h
    rw [if_pos hf, if_neg hcond, List.append_nil] at hev
    refine ⟨?_, _, by rw [ht, List.append_assoc, List.append_assoc], ?_⟩
    · rw [hg, handle_packet_first, hf]
      simp [he2]
    · intro e hmem
      rw [hev, List.mem_append, List.mem_append] at hmem
      rcases hmem with hmem | hmem | hmem
      · exact (pass_prologue_no_flash s it e hmem).2
      · simp only [List.mem_singleton] at hmem
        subst hmem
        rfl
      · simp only [List.mem_singleton] at hmem
        subst hmem
        rfl
  · obtain ⟨hg, evs, ht, hn⟩ := receive_body_no_data s it hd
    exact ⟨by rw [hg]; exact hf, evs, ht, fun e he => (hn e he).2⟩

theorem receive_loop_write_needs_erase (inputs : List Iter) (s : Session)
    (hf : s.globals.x_first_packet_received = false) :
    (∃ evs, (xmodem_receive_loop s inputs).trace = s.trace ++ evs ∧
        ∀ e ∈ evs, is_write e = false) ∨
    (∃ pre d post, inputs = pre ++ d :: post ∧ (d.header = X_SOH ∨ d.header = X_STX) ∧
      d.packet.erase_status = FLASH_OK ∧ running (xmodem_receive_loop s pre) = true ∧
      ∃ evs t2, (∀ e ∈ evs, is_write e = false) ∧
        (xmodem_receive_loop s inputs).trace
          = (s.trace ++ evs) ++ Event.flash_erase FLASH_APP_START_ADDRESS :: t2) := by
  induction inputs generalizing s with
  | nil => exact Or.inl ⟨[], (List.append_nil _).symm, fun e he => absurd he (List.not_mem_nil e)⟩
  | cons it rest ih =>
    by_cases hr : running s = true
    · by_cases hok : (it.header = X_SOH ∨ it.header = X_STX) ∧ it.packet.erase_status = FLASH_OK
      · right
        obtain ⟨hd, he⟩ := hok
        obtain ⟨_, ht⟩ := receive_body_data s it hd
        have hev := handle_packet_events s.globals it.header it.packet hd
        rw [if_pos hf, if_pos (Or.inr he)] at hev
        obtain ⟨evs2, ht2⟩ := receive_loop_trace_grows rest (xmodem_receive_body s it)
        refine ⟨[], it, rest, rfl, hd, he, hr, pass_prologue s it,
          Event.flash_write s.globals.xmodem_actual_flash_address
              (write_data it.packet.received_data (packet_size it.header))
              (packet_size it.header / 4) ::
            Event.transmit_ch
              (if X_OK = (xmodem_handle_packet s.globals it.header it.packet).status then X_ACK
                else X_NAK) :: evs2,
          fun e hmem => (pass_prologue_no_flash s it e hmem).2, ?_⟩
        rw [receive_loop_cons_running _ _ _ hr, ht2, ht, hev]
        simp only [List.append_assoc, List.singleton_append, List.cons_append, List.nil_append]
      · obtain ⟨hf1, e1, h1, n1⟩ := receive_body_erase_still_due s it hf hok
        rcases ih (xmodem_receive_body s it) hf1 with ⟨e2, h2, n2⟩ | ⟨pre, d, post, hin, hd, he, hrun, e2, t2, n2, h2⟩
        · left
          refine ⟨e1 ++ e2, by rw [receive_loop_cons_running _ _ _ hr, h2, h1, List.append_assoc], ?_⟩
          intro e hmem
          rw [List.mem_append] at hmem
          rcases hmem with hmem | hmem
          · exact n1 e hmem
          · exact n2 e hmem
        · right
          refine ⟨it :: pre, d, post, by rw [hin]; rfl, hd, he, ?_, e1 ++ e2, t2, ?_, ?_⟩
          · rw [receive_loop_cons_running _ _ _ hr]; exact hrun
          · intro e hmem
            rw [List.mem_append] at hmem
            rcases hmem with hmem | hmem
            · exact n1 e hmem
            · exact n2 e hmem
          · rw [receive_loop_cons_running _ _ _ hr, h2, h1]
            simp only [List.append_assoc]
    · have hr2 : running s = false := by simpa using hr
      left
      exact ⟨[], by rw [receive_loop_not_running _ _ hr2, List.append_nil],
        fun e he => absurd he (List.not_mem_nil e)⟩

/-- C11: in every run of xmodem_receive either no flash_write is requested at
all, or the run has a pass, reached with the loop running, whose data frame
got FLASH_OK from flash_erase, and no write is requested before that erase
request.  When the erase attempted for a frame fails, xmodem_handle_packet
returns the non-zero status X_ERROR_FLASH and does not call flash_write. -/
theorem write_only_after_successful_erase (inputs : List Iter) (g : Globals) (header : Nat)
    (p : Packet) (hh : header = X_SOH ∨ header = X_STX)
    (hg : g.x_first_packet_received = false) (he : p.erase_status ≠ FLASH_OK) :
    ((∀ e ∈ (xmodem_receive inputs).trace, is_write e = false) ∨
      (∃ pre d post, inputs = pre ++ d :: post ∧ (d.header = X_SOH ∨ d.header = X_STX) ∧
        d.packet.erase_status = FLASH_OK ∧ running (xmodem_receive pre) = true ∧
        ∃ t1 t2, (∀ e ∈ t1, is_write e = false) ∧
          (xmodem_receive inputs).trace
            = t1 ++ Event.flash_erase FLASH_APP_START_ADDRESS :: t2)) ∧
    ((xmodem_handle_packet g header p).status = X_ERROR_FLASH ∧
      (xmodem_handle_packet g header p).status ≠ X_OK ∧
      ∀ e ∈ (xmodem_handle_packet g header p).events, is_write e = false) := by
  constructor
  · rcases receive_loop_write_needs_erase inputs session_start rfl with
      ⟨evs, ht, hn⟩ | ⟨pre, d, post, hin, hd, hok, hrun, evs, t2, hn, ht⟩
    · left
      intro e hmem
      unfold xmodem_receive at hmem
      rw [ht] at hmem
      exact hn e (by simpa [session_start] using hmem)
    · right
      refine ⟨pre, d, post, hin, hd, hok, hrun, evs, t2, hn, ?_⟩
      unfold xmodem_receive
      rw [ht]
      simp [session_start]
  · have h0 := header_status_data header hh
    have he2 : ¬ FLASH_OK = p.erase_status := fun e => he e.symm
    have hst : (xmodem_handle_packet g header p).status = X_ERROR_FLASH := by
      simp only [xmodem_handle_packet, h0, hg, if_true, if_neg he2]
      rfl
    have hev := handle_packet_events g header p hh
    have hcond : ¬ (g.x_first_packet_received = true ∨ p.erase_status = FLASH_OK) := by
      rintro (h | h)
      · rw [hg] at h; exact absurd h (by decide)
      · exact he h
    rw [if_pos hg, if_neg hcond, List.append_nil] at hev
    refine ⟨hst, by rw [hst]; decide, ?_⟩
    intro e hmem
    rw [hev, List.mem_singleton] at hmem
    subst hmem
    rfl

/-- Witness for C11: the first SOH frame of a session with a failing erase,
and a run of three accepted frames. -/
theorem write_only_after_successful_erase_witness :
    session_start.globals.x_first_packet_received = false ∧
    erase_fail_pass.packet.erase_status ≠ FLASH_OK ∧
    (xmodem_handle_packet session_start.globals X_SOH erase_fail_pass.packet).status ≠ X_OK :=
  ⟨rfl, by decide,
    (write_only_after_successful_erase [soh_pass 1 zero_payload] session_start.globals X_SOH
      erase_fail_pass.packet (Or.inl rfl) rfl (by decide)).2.2.1⟩

/-! ## The checks of xmodem_handle_packet one by one -/

/-- The status of xmodem_handle_packet on a data frame once the erase stage has
passed: the value built by the block "Error handling and flashing". -/
theorem handle_packet_status_after_erase (g : Globals) (header : Nat) (p : Packet)
    (hh : header = X_SOH ∨ header = X_STX)
    (hfirst : g.x_first_packet_received = true ∨ p.erase_status = FLASH_OK) :
    (xmodem_handle_packet g header p).status = check_and_flash g header p X_OK := by
  have h0 := header_status_data header hh
  simp only [xmodem_handle_packet, h0]
  cases hf : g.x_first_packet_received
  · have he : FLASH_OK = p.erase_status := by
      rcases hfirst with h | h
      · rw [hf] at h; exact absurd h (by decide)
      · exact h.symm
    simp [he]
  · simp

/-- C12: for a data frame whose number n is the expected one, with complement c
(both bytes) and every other check passing, xmodem_handle_packet returns X_OK
when the integer sum n + c is 255 and X_ERROR_NUMBER otherwise; so no
packet-number error is raised exactly when n + c = 255, and for bytes a sum
that is 255 modulo 256 is 255 itself. -/
theorem number_check_is_exact_sum (g : Globals) (header n c : Nat) (p : Packet)
    (hh : header = X_SOH ∨ header = X_STX)
    (hn : p.received_data.getD X_PACKET_NUMBER_INDEX 0 = n)
    (hc : p.received_data.getD X_PACKET_NUMBER_COMPLEMENT_INDEX 0 = c)
    (hn255 : n ≤ 255) (hc255 : c ≤ 255)
    (hexp : g.xmodem_packet_number = n)
    (hfirst : g.x_first_packet_received = true ∨ p.erase_status = FLASH_OK)
    (hcomm : p.comm_status = UART_OK)
    (hcrc : crc_calculated p.received_data (packet_size header)
      = crc_received p.received_data (packet_length header))
    (hwrite : p.write_status = FLASH_OK) :
    (xmodem_handle_packet g header p).status = (if n + c = 255 then X_OK else X_ERROR_NUMBER) ∧
    ((xmodem_handle_packet g header p).status &&& X_ERROR_NUMBER = 0 ↔ n + c = 255) ∧
    ((n + c) % 256 = 255 ↔ n + c = 255) := by
  have hst : (xmodem_handle_packet g header p).status
      = (if n + c = 255 then X_OK else X_ERROR_NUMBER) := by
    rw [handle_packet_status_after_erase g header p hh hfirst]
    unfold check_and_flash
    have h1 : ¬ UART_OK ≠ p.comm_status := fun h => h hcomm.symm
    have h2 : ¬ g.xmodem_packet_number ≠ n := fun h => h hexp
    have h4 : ¬ crc_calculated p.received_data (packet_size header)
        ≠ crc_received p.received_data (packet_length header) := fun h => h hcrc
    have h5 : ¬ FLASH_OK ≠ p.write_status := fun h => h hwrite.symm
    simp only [hn, hc]
    simp only [if_neg h1, if_neg h2, if_neg h4, if_neg h5]
    by_cases hs : n + c = 255
    · rw [if_pos hs, if_neg (fun h => h hs.symm)]
    · rw [if_neg hs, if_pos (fun h => hs h.symm)]
      rfl
  refine ⟨hst, ?_, by omega⟩
  rw [hst]
  by_cases hs : n + c = 255
  · rw [if_pos hs]
    exact ⟨fun _ => hs, fun _ => rfl⟩
  · rw [if_neg hs]
    exact ⟨fun h => absurd h (by decide), fun h => absurd h hs⟩

/-- Witness for C12: frame number 1 with complement 254 at the start of a
session. -/
theorem number_check_is_exact_sum_witness :
    (good_packet 1 zero_payload).received_data.getD X_PACKET_NUMBER_INDEX 0 = 1 ∧
    (good_packet 1 zero_payload).received_data.getD X_PACKET_NUMBER_COMPLEMENT_INDEX 0 = 254 ∧
    (xmodem_handle_packet session_start.globals X_SOH (good_packet 1 zero_payload)).status
      = (if 1 + 254 = 255 then X_OK else X_ERROR_NUMBER) :=
  ⟨rfl, rfl,
    (number_check_is_exact_sum session_start.globals X_SOH 1 254 (good_packet 1 zero_payload)
      (Or.inl rfl) rfl rfl (by decide) (by decide) rfl (Or.inr rfl) rfl (by decide!) rfl).1⟩

/-! ## Solicitation and the first-packet flag -/

/-- C13: a pass whose header read fails (leaving a byte that is no header, such
as the initial 0x00) while no first packet was received and the error count
is below X_MAX_ERRORS makes exactly one call, the transmission of 0x43: the
error count, the packet number, the write address, the flag and the status are
unchanged, nothing else is transmitted, storage is not touched, and the loop
goes on. -/
theorem header_timeout_before_first_packet_solicits (s : Session) (it : Iter)
    (hfirst : s.globals.x_first_packet_received = false)
    (he : s.error_number < X_MAX_ERRORS) (hrun : running s = true)
    (hit : it.comm_status ≠ UART_OK ∧ it.header ≠ X_SOH ∧ it.header ≠ X_STX ∧
      it.header ≠ X_EOT ∧ it.header ≠ X_CAN) :
    xmodem_receive_body s it = { s with trace := s.trace ++ [Event.transmit_ch 0x43] } ∧
    (xmodem_receive_body s it).trace = s.trace ++ [Event.transmit_ch X_C] ∧
    (xmodem_receive_body s it).error_number = s.error_number ∧
    (xmodem_receive_body s it).globals = s.globals ∧
    running (xmodem_receive_body s it) = true := by
  obtain ⟨hc, h1, h2, h3, h4⟩ := hit
  have hd : ¬ (it.header = X_SOH ∨ it.header = X_STX) := by
    rintro (h | h)
    · exact h1 h
    · exact h2 h
  have hc2 : ¬ UART_OK = it.comm_status := fun e => hc e.symm
  have hc3 : UART_OK ≠ it.comm_status ∧ s.globals.x_first_packet_received = false :=
    ⟨hc2, hfirst⟩
  have he2 : ¬ s.error_number ≥ X_MAX_ERRORS := by omega
  have hbody : xmodem_receive_body s it = { s with trace := s.trace ++ [Event.transmit_ch X_C] } := by
    simp only [xmodem_receive_body, header_switch, if_neg hd, if_neg h3, if_neg h4, if_neg hc2,
      if_neg he2, if_pos hc3]
  refine ⟨hbody, by rw [hbody], by rw [hbody], by rw [hbody], ?_⟩
  rw [hbody]
  exact hrun

/-- Witness for C13: a header timeout at the start of a session. -/
theorem header_timeout_before_first_packet_solicits_witness :
    session_start.globals.x_first_packet_received = false ∧
    session_start.error_number < X_MAX_ERRORS ∧
    (xmodem_receive_body session_start timeout_pass).trace = [] ++ [Event.transmit_ch X_C] :=
  ⟨rfl, by decide,
    (header_timeout_before_first_packet_solicits session_start timeout_pass rfl (by decide) rfl
      (by decide)).2.1⟩

theorem pass_prologue_count_c (s : Session) (it : Iter)
    (hf : s.globals.x_first_packet_received = true) :
    List.count (Event.transmit_ch X_C) (pass_prologue s it) = 0 := by
  unfold pass_prologue
  have h1 : ¬ (UART_OK ≠ it.comm_status ∧ s.globals.x_first_packet_received = false) := by
    rintro ⟨_, h⟩
    rw [hf] at h
    exact absurd h (by decide)
  rw [if_neg h1]
  by_cases h2 : s.error_number ≥ X_MAX_ERRORS <;> simp [h2, X_C, X_CAN]

theorem header_switch_count_c (s : Session) (it : Iter) (st : Nat) (tr : List Event) :
    List.count (Event.transmit_ch X_C) (header_switch s it st tr).trace
      = List.count (Event.transmit_ch X_C) tr := by
  have hev := handle_packet_events_no_transmit s.globals it.header it.packet 0x43
  simp only [header_switch]
  split_ifs <;> simp [List.count_append, hev, X_C, X_ACK, X_NAK]

theorem receive_body_first_iff (s : Session) (it : Iter) :
    (xmodem_receive_body s it).globals.x_first_packet_received = true ↔
      s.globals.x_first_packet_received = true ∨
        ((it.header = X_SOH ∨ it.header = X_STX) ∧ it.packet.erase_status = FLASH_OK) := by
  by_cases hd : it.header = X_SOH ∨ it.header = X_STX
  · rw [(receive_body_data s it hd).1, handle_packet_first]
    simp only [Bool.or_eq_true, decide_eq_true_eq]
    constructor
    · rintro (h | h)
      · exact Or.inl h
      · exact Or.inr ⟨hd, h.symm⟩
    · rintro (h | ⟨_, h⟩)
      · exact Or.inl h
      · exact Or.inr h.symm
  · rw [(receive_body_no_data s it hd).1]
    constructor
    · exact fun h => Or.inl h
    · rintro (h | ⟨h, _⟩)
      · exact h
      · exact absurd h hd

/-- C17 (counterexample): the first data frame of a session is rejected for its
CRC while its erase succeeds; the first-packet flag is true afterwards and the
header read timeout that follows transmits no 0x43. -/
theorem first_packet_flag_set_by_rejected_frame :
    (xmodem_handle_packet session_start.globals X_SOH bad_crc_packet).status ≠ X_OK ∧
    (xmodem_receive [bad_crc_pass]).globals.x_first_packet_received = true ∧
    running (xmodem_receive [bad_crc_pass]) = true ∧
    List.count (Event.transmit_ch X_C) (xmodem_receive [bad_crc_pass, timeout_pass]).trace = 0 := by
  decide!

/-- C17 (amended): after a pass the first-packet flag is true exactly when it
was true before or the pass handled a data frame whose flash_erase returned
FLASH_OK, whether or not that frame was admitted; once the flag is true no
pass transmits 0x43. -/
theorem first_packet_flag_follows_erase (s : Session) (it : Iter) :
    ((xmodem_receive_body s it).globals.x_first_packet_received = true ↔
      s.globals.x_first_packet_received = true ∨
        ((it.header = X_SOH ∨ it.header = X_STX) ∧ it.packet.erase_status = FLASH_OK)) ∧
    (s.globals.x_first_packet_received = true →
      List.count (Event.transmit_ch X_C) (xmodem_receive_body s it).trace
        = List.count (Event.transmit_ch X_C) s.trace) := by
  refine ⟨receive_body_first_iff s it, ?_⟩
  intro hf
  rw [receive_body_eq_switch, header_switch_count_c, List.count_append,
    pass_prologue_count_c s it hf, Nat.add_zero]

/-- Witness for C17 (amended): a header timeout after the rejected first frame
adds no 0x43. -/
theorem first_packet_flag_follows_erase_witness :
    (xmodem_receive [bad_crc_pass]).globals.x_first_packet_received = true ∧
    List.count (Event.transmit_ch X_C)
        (xmodem_receive_body (xmodem_receive [bad_crc_pass]) timeout_pass).trace
      = List.count (Event.transmit_ch X_C) (xmodem_receive [bad_crc_pass]).trace :=
  ⟨by decide!,
    (first_packet_flag_follows_erase (xmodem_receive [bad_crc_pass]) timeout_pass).2
      (by decide!)⟩

/-! ## The handoff -/

theorem header_switch_not_eot (s : Session) (it : Iter) (st : Nat) (tr : List Event)
    (h : it.header ≠ X_EOT) :
    (header_switch s it st tr).jumped = s.jumped ∧
    ∃ evs, (header_switch s it st tr).trace = tr ++ evs ∧ Event.flash_jump_to_app ∉ evs := by
  simp only [header_switch, if_neg h]
  split_ifs
  · exact ⟨rfl, _, List.append_assoc _ _ _, by
      rw [List.mem_append]
      rintro (hx | hx)
      · exact handle_packet_events_no_jump _ _ _ hx
      · simp at hx⟩
  · exact ⟨rfl, _, List.append_assoc _ _ _, by
      rw [List.mem_append]
      rintro (hx | hx)
      · exact handle_packet_events_no_jump _ _ _ hx
      · simp at hx⟩
  · exact ⟨rfl, [], (List.append_nil _).symm, List.not_mem_nil _⟩
  · exact ⟨rfl, _, rfl, by simp⟩
  · exact ⟨rfl, [], (List.append_nil _).symm, List.not_mem_nil _⟩

theorem receive_body_not_eot (s : Session) (it : Iter) (h : it.header ≠ X_EOT) :
    (xmodem_receive_body s it).jumped = s.jumped ∧
    ∃ evs, (xmodem_receive_body s it).trace = s.trace ++ evs ∧
      Event.flash_jump_to_app ∉ evs := by
  rw [receive_body_eq_switch]
  obtain ⟨hj, evs, ht, hn⟩ := header_switch_not_eot s it
    (if s.error_number ≥ X_MAX_ERRORS then X_ERROR else s.status)
    (s.trace ++ pass_prologue s it) h
  refine ⟨hj, pass_prologue s it ++ evs, by rw [ht, List.append_assoc], ?_⟩
  rw [List.mem_append]
  rintro (hx | hx)
  · exact pass_prologue_no_jump s it hx
  · exact hn hx

theorem receive_body_on_eot (s : Session) (it : Iter) (h : it.header = X_EOT) :
    (xmodem_receive_body s it).jumped = true ∧
    (xmodem_receive_body s it).trace =
      (s.trace ++ pass_prologue s it) ++
        [Event.transmit_ch X_ACK, Event.transmit_str TEXT_UPDATED,
          Event.transmit_str TEXT_JUMPING, Event.flash_jump_to_app] := by
  rw [receive_body_eq_switch]
  have hd : ¬ (it.header = X_SOH ∨ it.header = X_STX) := by
    rw [h]; decide
  simp only [header_switch, if_neg hd, if_pos h]
  exact ⟨trivial, trivial⟩

theorem receive_loop_handoff (inputs : List Iter) (s : Session)
    (hj : s.jumped = false) (hn : Event.flash_jump_to_app ∉ s.trace) :
    ((xmodem_receive_loop s inputs).jumped = false ∧
        Event.flash_jump_to_app ∉ (xmodem_receive_loop s inputs).trace) ∨
    (∃ pre d post t, inputs = pre ++ d :: post ∧ d.header = X_EOT ∧
      running (xmodem_receive_loop s pre) = true ∧ Event.flash_jump_to_app ∉ t ∧
      (xmodem_receive_loop s inputs).jumped = true ∧
      (xmodem_receive_loop s inputs).trace =
        t ++ [Event.transmit_ch X_ACK, Event.transmit_str TEXT_UPDATED,
          Event.transmit_str TEXT_JUMPING, Event.flash_jump_to_app]) := by
  induction inputs generalizing s with
  | nil => exact Or.inl ⟨hj, hn⟩
  | cons it rest ih =>
    by_cases hr : running s = true
    · by_cases he : it.header = X_EOT
      · right
        obtain ⟨hj1, ht1⟩ := receive_body_on_eot s it he
        have hnr : running (xmodem_receive_body s it) = false := by
          unfold running
          rw [hj1]
          simp
        refine ⟨[], it, rest, s.trace ++ pass_prologue s it, rfl, he, hr, ?_, ?_, ?_⟩
        · rw [List.mem_append]
          rintro (hx | hx)
          · exact hn hx
          · exact pass_prologue_no_jump s it hx
        · rw [receive_loop_cons_running _ _ _ hr, receive_loop_not_running _ _ hnr]
          exact hj1
        · rw [receive_loop_cons_running _ _ _ hr, receive_loop_not_running _ _ hnr]
          exact ht1
      · obtain ⟨hj1, evs, ht1, hn1⟩ := receive_body_not_eot s it he
        have hn2 : Event.flash_jump_to_app ∉ (xmodem_receive_body s it).trace := by
          rw [ht1, List.mem_append]
          rintro (hx | hx)
          · exact hn hx
          · exact hn1 hx
        rcases ih (xmodem_receive_body s it) (by rw [hj1]; exact hj) hn2 with
          ⟨a, b⟩ | ⟨pre, d, post, t, hin, hd, hrun, ht, hjj, htr⟩
        · left
          rw [receive_loop_cons_running _ _ _ hr]
          exact ⟨a, b⟩
        · right
          refine ⟨it :: pre, d, post, t, by rw [hin]; rfl, hd, ?_, ht, ?_, ?_⟩
          · rw [receive_loop_cons_running _ _ _ hr]; exact hrun
          · rw [receive_loop_cons_running _ _ _ hr]; exact hjj
          · rw [receive_loop_cons_running _ _ _ hr]; exact htr
    · have hr2 : running s = false := by simpa using hr
      left
      rw [receive_loop_not_running _ _ hr2]
      exact ⟨hj, hn⟩

/-- C14: in every run of xmodem_receive flash_jump_to_app is called at most
once.  If it is called, the run has a pass, reached with the loop running,
whose header is End Of Transmission, and the trace ends with ACK, the two
texts and the handoff, in this order, with no handoff before them.  A pass
whose header is not End Of Transmission (a cancel, a data header or an
unrecognised byte) never calls it. -/
theorem handoff_only_on_eot_after_ack_and_text (inputs : List Iter) (s : Session) (it : Iter)
    (hne : it.header ≠ X_EOT) :
    List.count Event.flash_jump_to_app (xmodem_receive inputs).trace ≤ 1 ∧
    (Event.flash_jump_to_app ∈ (xmodem_receive inputs).trace →
      ∃ pre d post t, inputs = pre ++ d :: post ∧ d.header = X_EOT ∧
        running (xmodem_receive pre) = true ∧ Event.flash_jump_to_app ∉ t ∧
        (xmodem_receive inputs).trace =
          t ++ [Event.transmit_ch X_ACK, Event.transmit_str TEXT_UPDATED,
            Event.transmit_str TEXT_JUMPING, Event.flash_jump_to_app]) ∧
    ((xmodem_receive_body s it).jumped = s.jumped ∧
      List.count Event.flash_jump_to_app (xmodem_receive_body s it).trace
        = List.count Event.flash_jump_to_app s.trace) := by
  have hloop := receive_loop_handoff inputs session_start rfl (List.not_mem_nil _)
  refine ⟨?_, ?_, ?_⟩
  · rcases hloop with ⟨_, hn⟩ | ⟨pre, d, post, t, _, _, _, ht, _, htr⟩
    · unfold xmodem_receive
      rw [List.count_eq_zero.2 hn]
      exact Nat.zero_le _
    · unfold xmodem_receive
      rw [htr, List.count_append, List.count_eq_zero.2 ht]
      simp
  · intro hmem
    rcases hloop with ⟨_, hn⟩ | ⟨pre, d, post, t, hin, hd, hrun, ht, _, htr⟩
    · exact absurd hmem hn
    · exact ⟨pre, d, post, t, hin, hd, hrun, ht, htr⟩
  · obtain ⟨hj, evs, ht, hn⟩ := receive_body_not_eot s it hne
    refine ⟨hj, ?_⟩
    rw [ht, List.count_append, List.count_eq_zero.2 hn, Nat.add_zero]

/-- Witness for C14: a run that ends with End Of Transmission, and a pass that
reads a cancel byte. -/
theorem handoff_only_on_eot_after_ack_and_text_witness :
    ({ comm_status := UART_OK, header := X_CAN, packet := idle_packet } : Iter).header ≠ X_EOT ∧
    List.count Event.flash_jump_to_app
      (xmodem_receive [soh_pass 1 zero_payload, eot_pass, eot_pass]).trace ≤ 1 ∧
    (xmodem_receive_body session_start
      { comm_status := UART_OK, header := X_CAN, packet := idle_packet }).jumped = false :=
  ⟨by decide,
    (handoff_only_on_eot_after_ack_and_text [soh_pass 1 zero_payload, eot_pass, eot_pass]
      session_start { comm_status := UART_OK, header := X_CAN, packet := idle_packet }
      (by decide)).1,
    (handoff_only_on_eot_after_ack_and_text [soh_pass 1 zero_payload, eot_pass, eot_pass]
      session_start { comm_status := UART_OK, header := X_CAN, packet := idle_packet }
      (by decide)).2.2.1⟩

/-! ## Shape of the write requests -/

theorem write_data_length (header : Nat) (rd : List Nat)
    (hh : header = X_SOH ∨ header = X_STX) (hlen : packet_length header ≤ rd.length) :
    (write_data rd (packet_size header)).length = packet_size header := by
  unfold write_data
  rw [List.length_take, List.length_drop]
  rcases packet_size_data header hh with ⟨_, hs⟩ | ⟨_, hs⟩
  · have hl : packet_length header = 132 := by
      unfold packet_length; rw [hs]; rfl
    rw [hl] at hlen
    rw [hs]
    unfold X_PACKET_DATA_INDEX
    omega
  · have hl : packet_length header = 1028 := by
      unfold packet_length; rw [hs]; rfl
    rw [hl] at hlen
    rw [hs]
    unfold X_PACKET_DATA_INDEX
    omega

theorem address_step (a k size : Nat)
    (ha : a = (FLASH_APP_START_ADDRESS + 128 * k) % 4294967296)
    (hs : size = 128 ∨ size = 1024) :
    ∃ k2, (a + size) % 4294967296 = (FLASH_APP_START_ADDRESS + 128 * k2) % 4294967296 := by
  unfold FLASH_APP_START_ADDRESS at ha ⊢
  rcases hs with hs | hs
  · exact ⟨k + 1, by omega⟩
  · exact ⟨k + 8, by omega⟩

theorem address_aligned (a k : Nat)
    (ha : a = (FLASH_APP_START_ADDRESS + 128 * k) % 4294967296) : a % 4 = 0 := by
  unfold FLASH_APP_START_ADDRESS at ha
  omega

theorem receive_body_write_shape (wf : Prop) (s : Session) (it : Iter)
    (hwf : wf → buffer_filled it)
    (haddr : ∃ k, s.globals.xmodem_actual_flash_address
      = (FLASH_APP_START_ADDRESS + 128 * k) % 4294967296)
    (htr : ∀ a d l, Event.flash_write a d l ∈ s.trace → write_shape wf a d l) :
    (∃ k, (xmodem_receive_body s it).globals.xmodem_actual_flash_address
      = (FLASH_APP_START_ADDRESS + 128 * k) % 4294967296) ∧
    (∀ a d l, Event.flash_write a d l ∈ (xmodem_receive_body s it).trace →
      write_shape wf a d l) := by
  by_cases hd : it.header = X_SOH ∨ it.header = X_STX
  · obtain ⟨hg, ht⟩ := receive_body_data s it hd
    have hsz := packet_size_data it.header hd
    have hsz2 : packet_size it.header = 128 ∨ packet_size it.header = 1024 := by
      rcases hsz with ⟨_, h⟩ | ⟨_, h⟩
      · exact Or.inl h
      · exact Or.inr h
    constructor
    · rw [hg]
      obtain ⟨k, hk⟩ := haddr
      by_cases hok : (xmodem_handle_packet s.globals it.header it.packet).status = X_OK
      · rw [((handle_packet_counters s.globals it.header it.packet).1 hok).2]
        exact address_step _ k _ hk hsz2
      · rw [((handle_packet_counters s.globals it.header it.packet).2 hok).2]
        exact ⟨k, hk⟩
    · intro a d l hmem
      rw [ht, List.mem_append, List.mem_append, List.mem_append] at hmem
      rcases hmem with ((hmem | hmem) | hmem) | hmem
      · exact htr a d l hmem
      · have := (pass_prologue_no_flash s it _ hmem).2
        simp [is_write] at this
      · rw [handle_packet_events s.globals it.header it.packet hd, List.mem_append] at hmem
        rcases hmem with hmem | hmem
        · split at hmem <;> simp at hmem
        · split at hmem
          · simp only [List.mem_singleton, Event.flash_write.injEq] at hmem
            obtain ⟨ha, hdd, hl⟩ := hmem
            obtain ⟨k, hk⟩ := haddr
            refine ⟨⟨k, by rw [ha]; exact hk⟩, by rw [ha]; exact address_aligned _ k hk, ?_⟩
            rcases hsz with ⟨_, h⟩ | ⟨_, h⟩
            · left
              refine ⟨by rw [hl, h], fun w => ?_⟩
              rw [hdd, write_data_length it.header _ hd (hwf w hd), h]
            · right
              refine ⟨by rw [hl, h], fun w => ?_⟩
              rw [hdd, write_data_length it.header _ hd (hwf w hd), h]
          · simp at hmem
      · simp at hmem
  · obtain ⟨hg, evs, ht, hn⟩ := receive_body_no_data s it hd
    refine ⟨by rw [hg]; exact haddr, ?_⟩
    intro a d l hmem
    rw [ht, List.mem_append] at hmem
    rcases hmem with hmem | hmem
    · exact htr a d l hmem
    · have := (hn _ hmem).2
      simp [is_write] at this

theorem receive_loop_write_shape (wf : Prop) (inputs : List Iter) (s : Session)
    (hwf : wf → ∀ it ∈ inputs, buffer_filled it)
    (haddr : ∃ k, s.globals.xmodem_actual_flash_address
      = (FLASH_APP_START_ADDRESS + 128 * k) % 4294967296)
    (htr : ∀ a d l, Event.flash_write a d l ∈ s.trace → write_shape wf a d l) :
    ∀ a d l, Event.flash_write a d l ∈ (xmodem_receive_loop s inputs).trace →
      write_shape wf a d l := by
  induction inputs generalizing s with
  | nil => exact htr
  | cons it rest ih =>
    rw [xmodem_receive_loop]
    split
    · obtain ⟨h1, h2⟩ := receive_body_write_shape wf s it
        (fun w => hwf w it (List.mem_cons_self _ _)) haddr htr
      exact ih _ (fun w x hx => hwf w x (List.mem_cons_of_mem _ hx)) h1 h2
    · exact htr

theorem handle_packet_write_event (g : Globals) (header : Nat) (p : Packet)
    (hh : header = X_SOH ∨ header = X_STX) (a l : Nat) (d : List Nat)
    (hmem : Event.flash_write a d l ∈ (xmodem_handle_packet g header p).events) :
    a = g.xmodem_actual_flash_address ∧
    d = write_data p.received_data (packet_size header) ∧
    l = packet_size header / 4 := by
  rw [handle_packet_events g header p hh, List.mem_append] at hmem
  rcases hmem with hmem | hmem
  · split at hmem <;> simp at hmem
  · split at hmem
    · simp only [List.mem_singleton, Event.flash_write.injEq] at hmem
      exact hmem
    · simp at hmem

theorem receive_body_write_origin (s : Session) (it : Iter) (a l : Nat) (d : List Nat)
    (hmem : Event.flash_write a d l ∈ (xmodem_receive_body s it).trace) :
    Event.flash_write a d l ∈ s.trace ∨
    ((it.header = X_SOH ∨ it.header = X_STX) ∧
      a = s.globals.xmodem_actual_flash_address ∧
      d = write_data it.packet.received_data (packet_size it.header) ∧
      l = packet_size it.header / 4) := by
  by_cases hd : it.header = X_SOH ∨ it.header = X_STX
  · rw [(receive_body_data s it hd).2, List.mem_append, List.mem_append, List.mem_append] at hmem
    rcases hmem with ((hmem | hmem) | hmem) | hmem
    · exact Or.inl hmem
    · have := (pass_prologue_no_flash s it _ hmem).2
      simp [is_write] at this
    · exact Or.inr ⟨hd, handle_packet_write_event s.globals it.header it.packet hd a l d hmem⟩
    · simp at hmem
  · obtain ⟨_, evs, ht, hn⟩ := receive_body_no_data s it hd
    rw [ht, List.mem_append] at hmem
    rcases hmem with hmem | hmem
    · exact Or.inl hmem
    · have := (hn _ hmem).2
      simp [is_write] at this

theorem receive_loop_write_origin (inputs : List Iter) (s : Session) (a l : Nat) (d : List Nat)
    (hmem : Event.flash_write a d l ∈ (xmodem_receive_loop s inputs).trace) :
    Event.flash_write a d l ∈ s.trace ∨
    ∃ pre it post, inputs = pre ++ it :: post ∧ running (xmodem_receive_loop s pre) = true ∧
      (it.header = X_SOH ∨ it.header = X_STX) ∧
      a = (xmodem_receive_loop s pre).globals.xmodem_actual_flash_address ∧
      d = write_data it.packet.received_data (packet_size it.header) ∧
      l = packet_size it.header / 4 := by
  induction inputs generalizing s with
  | nil => exact Or.inl hmem
  | cons it rest ih =>
    by_cases hr : running s = true
    · rw [receive_loop_cons_running _ _ _ hr] at hmem
      rcases ih (xmodem_receive_body s it) hmem with h | ⟨pre, x, post, hin, hrun, hd, ha, hdd, hl⟩
      · rcases receive_body_write_origin s it a l d h with h2 | ⟨hd, ha, hdd, hl⟩
        · exact Or.inl h2
        · exact Or.inr ⟨[], it, rest, rfl, hr, hd, ha, hdd, hl⟩
      · refine Or.inr ⟨it :: pre, x, post, by rw [hin]; rfl, ?_, hd, ?_, hdd, hl⟩
        · rw [receive_loop_cons_running _ _ _ hr]; exact hrun
        · rw [receive_loop_cons_running _ _ _ hr]; exact ha
    · have hr2 : running s = false := by simpa using hr
      rw [receive_loop_not_running _ _ hr2] at hmem
      exact Or.inl hmem

theorem write_of_pass_of_header (it : Iter) (d : List Nat) (l : Nat)
    (hd : it.header = X_SOH ∨ it.header = X_STX)
    (hdd : d = write_data it.packet.received_data (packet_size it.header))
    (hl : l = packet_size it.header / 4) : write_of_pass it d l := by
  refine ⟨hdd, ?_⟩
  rcases packet_size_data it.header hd with ⟨hsoh, hs⟩ | ⟨hstx, hs⟩
  · left
    refine ⟨hsoh, by rw [hl, hs], fun hb => ?_⟩
    rw [hdd, write_data_length it.header _ hd (hb hd), hs]
  · right
    refine ⟨hstx, by rw [hl, hs], fun hb => ?_⟩
    rw [hdd, write_data_length it.header _ hd (hb hd), hs]

/-- C15: in every run of xmodem_receive every flash_write request has an address
equal to the start address plus a multiple of 128 (computed mod 2^32), which
is word-aligned.  Every such request is made by a data pass of the run,
reached with the loop running, at the write address of that moment, and the
header of that pass fixes its size: for SOH the request carries 32 words and
the payload is exactly 128 bytes, for STX it carries 256 words and the payload
is exactly 1024 bytes (the byte counts hold when the buffer of the pass holds
the bytes it asked for).  The same link holds for each single call of
xmodem_handle_packet. -/
theorem write_requests_are_well_shaped (inputs : List Iter) (a l : Nat) (d : List Nat)
    (hmem : Event.flash_write a d l ∈ (xmodem_receive inputs).trace) :
    write_shape (∀ it ∈ inputs, buffer_filled it) a d l ∧
    (∃ pre it post, inputs = pre ++ it :: post ∧ running (xmodem_receive pre) = true ∧
      a = (xmodem_receive pre).globals.xmodem_actual_flash_address ∧ write_of_pass it d l) ∧
    (∀ (g : Globals) (header : Nat) (p : Packet) (a2 l2 : Nat) (d2 : List Nat),
      header = X_SOH ∨ header = X_STX →
      Event.flash_write a2 d2 l2 ∈ (xmodem_handle_packet g header p).events →
      a2 = g.xmodem_actual_flash_address ∧
      d2 = write_data p.received_data (packet_size header) ∧
      ((header = X_SOH ∧ l2 = 32 ∧
          (packet_length header ≤ p.received_data.length → d2.length = 128)) ∨
        (header = X_STX ∧ l2 = 256 ∧
          (packet_length header ≤ p.received_data.length → d2.length = 1024)))) := by
  refine ⟨?_, ?_, ?_⟩
  · refine receive_loop_write_shape _ inputs session_start (fun w => w) ⟨0, rfl⟩ ?_ a d l hmem
    intro a d l h
    exact absurd h (List.not_mem_nil _)
  · rcases receive_loop_write_origin inputs session_start a l d hmem with
      h | ⟨pre, it, post, hin, hrun, hd, ha, hdd, hl⟩
    · exact absurd h (List.not_mem_nil _)
    · exact ⟨pre, it, post, hin, hrun, ha, write_of_pass_of_header it d l hd hdd hl⟩
  · intro g header p a2 l2 d2 hh hev
    obtain ⟨ha, hdd, hl⟩ := handle_packet_write_event g header p hh a2 l2 d2 hev
    refine ⟨ha, hdd, ?_⟩
    rcases packet_size_data header hh with ⟨hsoh, hs⟩ | ⟨hstx, hs⟩
    · left
      refine ⟨hsoh, by rw [hl, hs], fun hb => ?_⟩
      rw [hdd, write_data_length header _ hh hb, hs]
    · right
      refine ⟨hstx, by rw [hl, hs], fun hb => ?_⟩
      rw [hdd, write_data_length header _ hh hb, hs]

/-- Witness for C15: the write of the first accepted SOH frame in a run, and
the write of a call of xmodem_handle_packet for a correct STX frame. -/
theorem write_requests_are_well_shaped_witness :
    Event.flash_write FLASH_APP_START_ADDRESS zero_payload 32
      ∈ (xmodem_receive [soh_pass 1 zero_payload]).trace ∧
    write_shape (∀ it ∈ [soh_pass 1 zero_payload], buffer_filled it)
      FLASH_APP_START_ADDRESS zero_payload 32 ∧
    (∃ pre it post, [soh_pass 1 zero_payload] = pre ++ it :: post ∧
      running (xmodem_receive pre) = true ∧
      FLASH_APP_START_ADDRESS = (xmodem_receive pre).globals.xmodem_actual_flash_address ∧
      write_of_pass it zero_payload 32) ∧
    Event.flash_write FLASH_APP_START_ADDRESS (List.replicate 1024 0) 256
      ∈ (xmodem_handle_packet session_start.globals X_STX
          (good_packet 1 (List.replicate 1024 0))).events ∧
    ((X_STX = X_SOH ∧ 256 = 32 ∧
        (packet_length X_STX ≤ (good_packet 1 (List.replicate 1024 0)).received_data.length →
          (List.replicate 1024 0).length = 128)) ∨
      (X_STX = X_STX ∧ 256 = 256 ∧
        (packet_length X_STX ≤ (good_packet 1 (List.replicate 1024 0)).received_data.length →
          (List.replicate 1024 0).length = 1024))) :=
  ⟨by decide!,
    (write_requests_are_well_shaped [soh_pass 1 zero_payload] FLASH_APP_START_ADDRESS 32
      zero_payload (by decide!)).1,
    (write_requests_are_well_shaped [soh_pass 1 zero_payload] FLASH_APP_START_ADDRESS 32
      zero_payload (by decide!)).2.1,
    by decide!,
    ((write_requests_are_well_shaped [soh_pass 1 zero_payload] FLASH_APP_START_ADDRESS 32
      zero_payload (by decide!)).2.2 session_start.globals X_STX
        (good_packet 1 (List.replicate 1024 0)) FLASH_APP_START_ADDRESS 256
        (List.replicate 1024 0) (Or.inr rfl) (by decide!)).2.2⟩

/-! ## Byte order of the trailing CRC -/

theorem crc_low_byte_lt (c : Nat) : c &&& 0xFF < 256 := by
  have h255 : (0xFF : Nat) = 2 ^ 8 - 1 := by norm_num
  rw [h255, Nat.and_pow_two_sub_one_eq_mod]
  exact Nat.mod_lt _ (by norm_num)

theorem buffer_crc_calculated (n c b1 b2 : Nat) (pl : List Nat) :
    crc_calculated (n :: c :: (pl ++ [b1, b2])) pl.length = xmodem_calc_crc pl pl.length := by
  unfold crc_calculated
  exact crc_loop_append pl _ 0

theorem buffer_getD_crc (n c b1 b2 : Nat) (pl : List Nat) :
    (n :: c :: (pl ++ [b1, b2])).getD (pl.length + 4 - 2) 0 = b1 ∧
    (n :: c :: (pl ++ [b1, b2])).getD (pl.length + 4 - 1) 0 = b2 := by
  constructor
  · have h : pl.length + 4 - 2 = pl.length + 1 + 1 := by omega
    rw [h, List.getD_cons_succ, List.getD_cons_succ]
    exact getD_append_add pl [b1, b2] 0 0
  · have h : pl.length + 4 - 1 = (pl.length + 1) + 1 + 1 := by omega
    rw [h, List.getD_cons_succ, List.getD_cons_succ]
    exact getD_append_add pl [b1, b2] 1 0

theorem buffer_crc_received (n c b1 b2 : Nat) (pl : List Nat) :
    crc_received (n :: c :: (pl ++ [b1, b2])) (pl.length + 4) = ((b1 <<< 8) ||| b2) % 65536 := by
  unfold crc_received
  rw [(buffer_getD_crc n c b1 b2 pl).1, (buffer_getD_crc n c b1 b2 pl).2]

theorem packet_length_data (header : Nat) (hh : header = X_SOH ∨ header = X_STX) :
    packet_length header = packet_size header + 4 := by
  unfold packet_length
  rcases packet_size_data header hh with ⟨_, hs⟩ | ⟨_, hs⟩ <;> rw [hs] <;> rfl

/-- C18 (code defect): at the start of a session (expected number 1) a frame
whose only failure is flash_write and a frame whose failures are the UART
read and the packet number, with flash_write succeeding, get the same status
0x06, because X_ERROR_FLASH equals X_ERROR_NUMBER | X_ERROR_UART. -/
theorem status_does_not_tell_flash_from_uart_and_number :
    X_ERROR_FLASH = X_ERROR_NUMBER ||| X_ERROR_UART ∧
    (xmodem_handle_packet session_start.globals X_SOH write_fail_packet).status = 0x06 ∧
    (xmodem_handle_packet session_start.globals X_SOH uart_and_number_fail_packet).status
      = 0x06 ∧
    check_and_flash session_start.globals X_SOH write_fail_packet X_OK
      = X_OK ||| X_ERROR_FLASH ∧
    check_and_flash session_start.globals X_SOH uart_and_number_fail_packet X_OK
      = X_OK ||| X_ERROR_UART ||| X_ERROR_NUMBER := by
  decide!

/-! ## Algebra of the CRC register -/

theorem crc_loop_split (p q : List Nat) (n crc : Nat) :
    xmodem_calc_crc_loop (p ++ q) (p.length + n) crc =
      xmodem_calc_crc_loop q n (xmodem_calc_crc_loop p p.length crc) := by
  induction p generalizing crc with
  | nil => simp [xmodem_calc_crc_loop]
  | cons b rest ih =>
    have h : (b :: rest).length + n = (rest.length + n) + 1 := by
      rw [List.length_cons]; omega
    rw [h, List.cons_append, xmodem_calc_crc_loop, List.tail_cons, List.headD_cons, ih,
      List.length_cons, xmodem_calc_crc_loop, List.tail_cons, List.headD_cons]

theorem bit15_of_lt (x : Nat) (hx : x < 32768) : x.testBit 15 = false :=
  Nat.testBit_lt_two_pow (by norm_num; exact hx)

theorem bit15_of_ge (x : Nat) (h1 : 32768 ≤ x) (h2 : x < 65536) : x.testBit 15 = true := by
  have hx : x = 2 ^ 15 + (x - 32768) := by norm_num; omega
  rw [hx, Nat.testBit_two_pow_add_eq, Nat.testBit_lt_two_pow (by norm_num; omega)]
  rfl

theorem crc_shift_small (x : Nat) (hx : x < 32768) : crc_shift x = 2 * x := by
  rw [crc_shift_eq_ref]
  unfold crc16_ref_round
  rw [bit15_of_lt x hx]
  simp only [Bool.false_eq_true, if_false]
  norm_num
  omega

theorem crc_for_small (k x : Nat) (h : x * 2 ^ k < 65536) : crc_for k x = x * 2 ^ k := by
  induction k generalizing x with
  | zero => simp [crc_for]
  | succ k ih =>
    have hx : x < 32768 := by
      have : 2 ^ (k + 1) = 2 * 2 ^ k := by rw [Nat.pow_succ]; omega
      rw [this] at h
      have hp : 1 ≤ 2 ^ k := Nat.one_le_two_pow
      nlinarith
    rw [crc_for, crc_shift_small x hx, ih (2 * x) (by rw [Nat.pow_succ] at h; nlinarith)]
    rw [Nat.pow_succ]
    ring

theorem xor_high_byte (c : Nat) :
    (c ^^^ ((c >>> 8) <<< 8)) % 65536 = c &&& 0xFF := by
  have h16 : (65536 : Nat) = 2 ^ 16 := by norm_num
  have h255 : (0xFF : Nat) = 2 ^ 8 - 1 := by norm_num
  rw [h16, h255]
  apply Nat.eq_of_testBit_eq
  intro i
  rw [Nat.testBit_mod_two_pow, Nat.testBit_xor, Nat.testBit_shiftLeft, Nat.testBit_shiftRight,
    Nat.testBit_and, Nat.testBit_two_pow_sub_one]
  by_cases h8 : i < 8
  · have h1 : i < 16 := by omega
    have h2 : ¬ i ≥ 8 := by omega
    simp [h8, h1, h2]
  · have h2 : i ≥ 8 := by omega
    have h3 : 8 + (i - 8) = i := by omega
    simp [h8, h2, h3]

/-- C19: for every byte sequence p, with c the CRC of p, the CRC of p followed
by the two bytes (c >> 8) and (c & 0xFF) is 0x0000. -/
theorem crc_of_payload_with_its_crc_is_zero (p : List Nat) :
    xmodem_calc_crc
      (p ++ [xmodem_calc_crc p p.length >>> 8, xmodem_calc_crc p p.length &&& 0xFF])
      (p.length + 2) = 0x0000 := by
  have hlo := crc_low_byte_lt (xmodem_calc_crc p p.length)
  unfold xmodem_calc_crc at hlo ⊢
  rw [crc_loop_split]
  simp only [xmodem_calc_crc_loop, List.headD_cons, List.tail_cons]
  have e1 : crc_for 8 ((xmodem_calc_crc_loop p p.length 0
      ^^^ ((xmodem_calc_crc_loop p p.length 0 >>> 8) <<< 8)) % 65536)
      = (xmodem_calc_crc_loop p p.length 0 &&& 0xFF) * 2 ^ 8 := by
    rw [xor_high_byte _]
    exact crc_for_small 8 _ (by omega)
  have e2 : (xmodem_calc_crc_loop p p.length 0 &&& 0xFF) <<< 8
      = (xmodem_calc_crc_loop p p.length 0 &&& 0xFF) * 2 ^ 8 := Nat.shiftLeft_eq _ _
  rw [e1, e2, Nat.xor_self]
  rfl

/-! ## The register never forgets a difference -/

theorem crc_shift_large (x : Nat) (h1 : 32768 ≤ x) (h2 : x < 65536) :
    crc_shift x = (2 * x - 65536) ^^^ 0x1021 := by
  rw [crc_shift_eq_ref]
  unfold crc16_ref_round
  rw [bit15_of_ge x h1 h2]
  simp only [if_true]
  have h : 2 * x % 2 ^ 16 = 2 * x - 65536 := by norm_num; omega
  rw [h]

theorem crc_shift_parity (x : Nat) (hx : x < 65536) :
    crc_shift x % 2 = (if 32768 ≤ x then 1 else 0) := by
  by_cases h : 32768 ≤ x
  · rw [if_pos h, crc_shift_large x h hx, Nat.xor_mod_two_eq]
    omega
  · rw [if_neg h, crc_shift_small x (by omega)]
    omega

theorem crc_shift_injective (a b : Nat) (ha : a < 65536) (hb : b < 65536)
    (h : crc_shift a = crc_shift b) : a = b := by
  have pa := crc_shift_parity a ha
  have pb := crc_shift_parity b hb
  rw [h] at pa
  by_cases h1 : 32768 ≤ a
  · by_cases h2 : 32768 ≤ b
    · rw [crc_shift_large a h1 ha, crc_shift_large b h2 hb] at h
      have := Nat.xor_left_inj.1 h
      omega
    · rw [if_pos h1] at pa
      rw [if_neg h2] at pb
      omega
  · by_cases h2 : 32768 ≤ b
    · rw [if_neg h1] at pa
      rw [if_pos h2] at pb
      omega
    · rw [crc_shift_small a (by omega), crc_shift_small b (by omega)] at h
      omega

theorem crc_for_injective (n a b : Nat) (ha : a < 65536) (hb : b < 65536)
    (h : crc_for n a = crc_for n b) : a = b := by
  induction n generalizing a b with
  | zero => exact h
  | succ n ih =>
    rw [crc_for, crc_for] at h
    exact crc_shift_injective a b ha hb (ih _ _ (crc_shift_lt a) (crc_shift_lt b) h)

theorem byte_shift_lt (b : Nat) (hb : b < 256) : b <<< 8 < 2 ^ 16 := by
  rw [Nat.shiftLeft_eq]
  norm_num
  omega

theorem xor_byte_lt (r b : Nat) (hr : r < 65536) (hb : b < 256) : r ^^^ (b <<< 8) < 65536 := by
  have h := Nat.xor_lt_two_pow (show r < 2 ^ 16 by norm_num; exact hr) (byte_shift_lt b hb)
  norm_num at h
  exact h

/-- The register after one byte, as a function of the register before, is
injective. -/
theorem crc_byte_step_injective_register (r1 r2 b : Nat) (h1 : r1 < 65536) (h2 : r2 < 65536)
    (hb : b < 256)
    (h : crc_for 8 ((r1 ^^^ (b <<< 8)) % 65536) = crc_for 8 ((r2 ^^^ (b <<< 8)) % 65536)) :
    r1 = r2 := by
  have e := crc_for_injective 8 _ _ (Nat.mod_lt _ (by norm_num)) (Nat.mod_lt _ (by norm_num)) h
  rw [Nat.mod_eq_of_lt (xor_byte_lt r1 b h1 hb), Nat.mod_eq_of_lt (xor_byte_lt r2 b h2 hb)] at e
  exact Nat.xor_left_inj.1 e

/-- The register after one byte, as a function of the byte, is injective. -/
theorem crc_byte_step_injective_byte (r b1 b2 : Nat) (hr : r < 65536)
    (h1 : b1 < 256) (h2 : b2 < 256)
    (h : crc_for 8 ((r ^^^ (b1 <<< 8)) % 65536) = crc_for 8 ((r ^^^ (b2 <<< 8)) % 65536)) :
    b1 = b2 := by
  have e := crc_for_injective 8 _ _ (Nat.mod_lt _ (by norm_num)) (Nat.mod_lt _ (by norm_num)) h
  rw [Nat.mod_eq_of_lt (xor_byte_lt r b1 hr h1), Nat.mod_eq_of_lt (xor_byte_lt r b2 hr h2)] at e
  have e2 := Nat.xor_right_inj.1 e
  rw [Nat.shiftLeft_eq, Nat.shiftLeft_eq] at e2
  omega

theorem crc_loop_injective_register (n : Nat) (data : List Nat) (r1 r2 : Nat)
    (hdata : ∀ b ∈ data, b < 256) (h1 : r1 < 65536) (h2 : r2 < 65536)
    (h : xmodem_calc_crc_loop data n r1 = xmodem_calc_crc_loop data n r2) : r1 = r2 := by
  induction n generalizing data r1 r2 with
  | zero => exact h
  | succ n ih =>
    rw [xmodem_calc_crc_loop, xmodem_calc_crc_loop] at h
    have hb : data.headD 0 < 256 := by
      cases data with
      | nil => decide
      | cons x rest => exact hdata x (List.mem_cons_self _ _)
    have ht : ∀ b ∈ data.tail, b < 256 := fun b hmem => hdata b (List.mem_of_mem_tail hmem)
    have e := ih data.tail _ _ ht (crc_for_lt 8 _ (Nat.mod_lt _ (by norm_num)))
      (crc_for_lt 8 _ (Nat.mod_lt _ (by norm_num))) h
    exact crc_byte_step_injective_register r1 r2 _ h1 h2 hb e

/-- Two byte sequences that differ in exactly one byte have different CRCs. -/
theorem crc_detects_one_changed_byte (pre post : List Nat) (b1 b2 : Nat)
    (hpost : ∀ x ∈ post, x < 256)
    (h1 : b1 < 256) (h2 : b2 < 256) (hne : b1 ≠ b2) :
    xmodem_calc_crc (pre ++ b1 :: post) (pre ++ b1 :: post).length ≠
      xmodem_calc_crc (pre ++ b2 :: post) (pre ++ b2 :: post).length := by
  intro h
  unfold xmodem_calc_crc at h
  have hl1 : (pre ++ b1 :: post).length = pre.length + (post.length + 1) := by simp
  have hl2 : (pre ++ b2 :: post).length = pre.length + (post.length + 1) := by simp
  rw [hl1, hl2, crc_loop_split, crc_loop_split, xmodem_calc_crc_loop, xmodem_calc_crc_loop,
    List.tail_cons, List.tail_cons, List.headD_cons, List.headD_cons] at h
  have hr := crc_loop_lt pre pre.length 0 (by norm_num)
  have e := crc_loop_injective_register post.length post _ _ hpost
    (crc_for_lt 8 _ (Nat.mod_lt _ (by norm_num))) (crc_for_lt 8 _ (Nat.mod_lt _ (by norm_num))) h
  exact hne (crc_byte_step_injective_byte _ b1 b2 hr h1 h2 e)

theorem flip_bit_lt (b j : Nat) (hb : b < 256) (hj : j < 8) : b ^^^ (1 <<< j) < 256 := by
  have hm : 1 <<< j < 2 ^ 8 := by
    rw [Nat.shiftLeft_eq, Nat.one_mul]
    exact Nat.pow_lt_pow_right (by norm_num) hj
  have h := Nat.xor_lt_two_pow (show b < 2 ^ 8 by norm_num; exact hb) hm
  norm_num at h
  exact h

theorem flip_bit_ne (b j : Nat) : b ^^^ (1 <<< j) ≠ b := by
  intro h
  have h2 : b ^^^ (1 <<< j) = b ^^^ 0 := by rw [h, Nat.xor_zero]
  have h3 := Nat.xor_right_inj.1 h2
  rw [Nat.shiftLeft_eq, Nat.one_mul] at h3
  exact absurd h3 (Nat.pos_iff_ne_zero.1 (Nat.two_pow_pos j))

/-- C20: flipping one bit (bit j of the byte at any position) of a payload of
the packet size, 128 or 1024 bytes, changes the value of xmodem_calc_crc; a
data frame that carries the changed payload with the trailing CRC of the
original payload is not admitted by xmodem_handle_packet. -/
theorem single_bit_error_is_detected (pre post : List Nat) (b j : Nat) (g : Globals)
    (header n c : Nat) (p : Packet)
    (hb : b < 256) (hpost : ∀ x ∈ post, x < 256) (hj : j < 8)
    (hh : header = X_SOH ∨ header = X_STX)
    (hsize : (pre ++ b :: post).length = packet_size header)
    (hbuf : p.received_data = n :: c :: ((pre ++ (b ^^^ (1 <<< j)) :: post) ++
      [xmodem_calc_crc (pre ++ b :: post) (pre ++ b :: post).length >>> 8,
        xmodem_calc_crc (pre ++ b :: post) (pre ++ b :: post).length &&& 0xFF])) :
    ((pre ++ b :: post).length = 128 ∨ (pre ++ b :: post).length = 1024) ∧
    xmodem_calc_crc (pre ++ (b ^^^ (1 <<< j)) :: post) (pre ++ (b ^^^ (1 <<< j)) :: post).length
      ≠ xmodem_calc_crc (pre ++ b :: post) (pre ++ b :: post).length ∧
    (xmodem_handle_packet g header p).status ≠ X_OK := by
  have hcrc := crc_detects_one_changed_byte pre post (b ^^^ (1 <<< j)) b hpost
    (flip_bit_lt b j hb hj) hb (flip_bit_ne b j)
  have hsz : (pre ++ b :: post).length = 128 ∨ (pre ++ b :: post).length = 1024 := by
    rcases packet_size_data header hh with ⟨_, hs⟩ | ⟨_, hs⟩
    · exact Or.inl (by rw [hsize, hs])
    · exact Or.inr (by rw [hsize, hs])
  refine ⟨hsz, hcrc, ?_⟩
  intro hok
  have hchk := ((handle_packet_status_ok_iff g header p hh).1 hok).2.2.2.2.1
  have hl : (pre ++ (b ^^^ (1 <<< j)) :: post).length = packet_size header := by
    rw [← hsize]; simp
  rw [hbuf, packet_length_data header hh, ← hl, buffer_crc_calculated, buffer_crc_received,
    big_endian_join _ (xmodem_calc_crc_lt _ _)] at hchk
  exact hcrc hchk

/-- Witness for C20: the lowest bit of the first byte of the zero payload is
flipped in the first SOH frame of a session. -/
theorem single_bit_error_is_detected_witness :
    ([] ++ 0 :: List.replicate 127 0).length = packet_size X_SOH ∧
    xmodem_calc_crc ([] ++ (0 ^^^ (1 <<< 0)) :: List.replicate 127 0)
        ([] ++ (0 ^^^ (1 <<< 0)) :: List.replicate 127 0).length
      ≠ xmodem_calc_crc ([] ++ 0 :: List.replicate 127 0)
        ([] ++ 0 :: List.replicate 127 0).length :=
  ⟨by decide!,
    (single_bit_error_is_detected [] (List.replicate 127 0) 0 0 session_start.globals X_SOH 1 254
      { comm_status := UART_OK
        received_data := 1 :: 254 :: (([] ++ (0 ^^^ (1 <<< 0)) :: List.replicate 127 0) ++
          [xmodem_calc_crc ([] ++ 0 :: List.replicate 127 0)
              ([] ++ 0 :: List.replicate 127 0).length >>> 8,
            xmodem_calc_crc ([] ++ 0 :: List.replicate 127 0)
              ([] ++ 0 :: List.replicate 127 0).length &&& 0xFF])
        erase_status := FLASH_OK
        write_status := FLASH_OK }
      (by decide) (by decide!) (by decide) (Or.inl rfl) (by decide!) (by decide!)).2.1⟩

end Xmodem
